import Mathlib

/-!
Verification of the poster-downloader Telegram bot (Cloudflare Python Worker).

Shallow embedding of `src/telegram_bot.py` and `src/entry.py`:
- JSON payloads are `JValue`; Python dicts are association lists in insertion
  order (Python dict keys are unique, so first-match lookup and remove-all
  erasure coincide with dict semantics).
- A raised Python exception is `Except.error` carrying the exception text;
  the exact interpolated message of a Python exception is not modelled
  beyond a representative string.
- Network effects are represented by oracles (for `fetch`) and by explicit
  traces of outbound API calls (for the handlers in `entry.py`).
-/

namespace PosterBot

/-- JSON-like Python values as passed around by the source. -/
inductive JValue where
  | str (s : String)
  | num (n : Int)
  | bool (b : Bool)
  | null
  | arr (elems : List JValue)
  | obj (fields : List (String × JValue))

mutual

/-- Structural equality test, Python `==` on JSON values. -/
def JValue.beq : JValue → JValue → Bool
  | .str a, .str b => a == b
  | .num a, .num b => a == b
  | .bool a, .bool b => a == b
  | .null, .null => true
  | .arr a, .arr b => JValue.beqList a b
  | .obj a, .obj b => JValue.beqFields a b
  | _, _ => false

def JValue.beqList : List JValue → List JValue → Bool
  | [], [] => true
  | a :: as, b :: bs => JValue.beq a b && JValue.beqList as bs
  | _, _ => false

def JValue.beqFields : List (String × JValue) → List (String × JValue) → Bool
  | [], [] => true
  | (k, v) :: as, (l, w) :: bs => k == l && JValue.beq v w && JValue.beqFields as bs
  | _, _ => false

end

instance : BEq JValue := ⟨JValue.beq⟩

/-- Python truthiness (`bool(v)`) for the values of `JValue`. -/
def JValue.truthy : JValue → Bool
  | .str s => s != ""
  | .num n => n != 0
  | .bool b => b
  | .null => false
  | .arr xs => !xs.isEmpty
  | .obj fs => !fs.isEmpty

/-- A Python dict with values of type `α`, in insertion order. -/
abbrev PyDict (α : Type) := List (String × α)

/-- Python `d.get(k)` / `d[k]`: first binding of `k` (dict keys are unique). -/
def dictGet {α : Type} (d : PyDict α) (k : String) : Option α :=
  (d.find? (fun p => p.1 == k)).map Prod.snd

/-- Python `k in d`. -/
def hasKey {α : Type} (d : PyDict α) (k : String) : Bool :=
  d.any (fun p => p.1 == k)

/-- Python `d.pop(k, None)`: the removed value (if any) and the remaining
dict.  Removal erases every binding of `k`; on a genuine dict there is at
most one. -/
def dictPop {α : Type} (d : PyDict α) (k : String) : Option α × PyDict α :=
  (dictGet d k, d.filter (fun p => p.1 != k))

/-- Python `d[k] = v`: overwrite in place when `k` is present (Python keeps
the original key position), otherwise append. -/
def dictSet {α : Type} (d : PyDict α) (k : String) (v : α) : PyDict α :=
  if hasKey d k then d.map (fun p => if p.1 == k then (k, v) else p)
  else d ++ [(k, v)]

/-- Sequencing of a fallible loop body over a list, stopping at the first
raised exception, as a Python `for` loop does. -/
def mapExcept {α β : Type} (f : α → Except String β) :
    List α → Except String (List β)
  | [] => .ok []
  | a :: as =>
    match f a with
    | .error e => .error e
    | .ok b =>
      match mapExcept f as with
      | .error e => .error e
      | .ok bs => .ok (b :: bs)

/-- Escaping of `"` and backslash, the only escapes the payloads here need. -/
def jescape (s : String) : String :=
  String.join (s.data.map (fun c =>
    if c = '"' then "\\\"" else if c = '\\' then "\\\\" else String.singleton c))

mutual

/-- Python `json.dumps` on a `JValue` (default separators). -/
def jdump : JValue → String
  | .str s => "\"" ++ jescape s ++ "\""
  | .num n => toString n
  | .bool b => if b then "true" else "false"
  | .null => "null"
  | .arr xs => "[" ++ jdumpList xs ++ "]"
  | .obj fs => "\x7b" ++ jdumpFields fs ++ "\x7d"

def jdumpList : List JValue → String
  | [] => ""
  | [x] => jdump x
  | x :: xs => jdump x ++ ", " ++ jdumpList xs

def jdumpFields : List (String × JValue) → String
  | [] => ""
  | [(k, v)] => "\"" ++ jescape k ++ "\": " ++ jdump v
  | (k, v) :: fs => "\"" ++ jescape k ++ "\": " ++ jdump v ++ ", " ++ jdumpFields fs

end

mutual

/-- Python `repr` of a value (string quotes written as \x27). -/
def pyrepr : JValue → String
  | .str s => "\x27" ++ s ++ "\x27"
  | .num n => toString n
  | .bool b => if b then "True" else "False"
  | .null => "None"
  | .arr xs => "[" ++ pyreprList xs ++ "]"
  | .obj fs => "\x7b" ++ pyreprFields fs ++ "\x7d"

def pyreprList : List JValue → String
  | [] => ""
  | [x] => pyrepr x
  | x :: xs => pyrepr x ++ ", " ++ pyreprList xs

def pyreprFields : List (String × JValue) → String
  | [] => ""
  | [(k, v)] => "\x27" ++ k ++ "\x27: " ++ pyrepr v
  | (k, v) :: fs => "\x27" ++ k ++ "\x27: " ++ pyrepr v ++ ", " ++ pyreprFields fs

end

/-- Python `str(v)`. -/
def pystr : JValue → String
  | .str s => s
  | v => pyrepr v

/-!
Protocol Client: `TelegramBot` in `src/telegram_bot.py`.
-/

/-- Body of the inner button loop of `TelegramBot._fix_reply_markup`, generic
over the value type so the same algorithm serves the heap model below:

    btn_copy = dict(btn)
    cb = btn_copy.pop("callbackData", None) or btn_copy.pop("callback", None)
    if cb is not None:
        btn_copy["callback_data"] = cb

Python `or` evaluates (and hence pops) the second operand exactly when the
first pop returned a falsy value (including `None`). -/
def fixButtonG {α : Type} (truthyF : α → Bool) (btn : PyDict α) : PyDict α :=
  let p1 := dictPop btn "callbackData"
  let step :=
    match p1.1 with
    | some v =>
      if truthyF v then (some v, p1.2)
      else dictPop p1.2 "callback"
    | none => dictPop p1.2 "callback"
  match step.1 with
  | some cb => dictSet step.2 "callback_data" cb
  | none => step.2

/-- The button normalization of `_fix_reply_markup` on JSON button dicts. -/
def fixButton (btn : PyDict JValue) : PyDict JValue :=
  fixButtonG JValue.truthy btn

/-- One button of the keyboard: `dict(btn)` raises unless the button is a
dict (the exotic shapes `dict` also accepts never occur in this program). -/
def fixBtnVal : JValue → Except String JValue
  | .obj fields => .ok (.obj (fixButton fields))
  | _ => .error "TypeError: button is not a dict"

/-- One row of the keyboard: iterated like a Python list. -/
def fixRow : JValue → Except String JValue
  | .arr btns => (mapExcept fixBtnVal btns).map .arr
  | _ => .error "TypeError: row is not a list"

/-- `TelegramBot._fix_reply_markup`.  The argument is the Python value bound
to `reply_markup` (`JValue.null` models `None`).  Falsy arguments and dicts
without an `"inline_keyboard"` key are returned unchanged; a dict with one
has a fresh dict built with each button normalized by `fixButton`.  For
truthy non-dict arguments Python's `in` test is mirrored where it is cheap
(`str`, `list`) and the later `dict(...)`/iteration failure is a raise;
every call site in the repository passes a dict or `None`. -/
def fix_reply_markup (reply_markup : JValue) : Except String JValue :=
  if ¬ reply_markup.truthy then .ok reply_markup
  else
    match reply_markup with
    | .obj fields =>
      match dictGet fields "inline_keyboard" with
      | none => .ok reply_markup
      | some kb =>
        match kb with
        | .arr rows =>
          match mapExcept fixRow rows with
          | .error e => .error e
          | .ok newRows => .ok (.obj (dictSet fields "inline_keyboard" (.arr newRows)))
        | _ => .error "TypeError: inline_keyboard rows are not a list"
    | .str s =>
      if (s.splitOn "inline_keyboard").length == 1 then .ok reply_markup
      else .error "ValueError: dict() on a string"
    | .arr xs =>
      if xs.contains (.str "inline_keyboard") then
        .error "TypeError: list is not a keyboard dict"
      else .ok reply_markup
    | _ => .error "TypeError: argument is not iterable"

/-- A button dict that does not carry a truthy `callbackData` together with
a `callback` key: for such buttons (the only kind this program ever builds)
one normalization pass removes every alias field, because the short-circuit
in `pop(...) or pop(...)` can only leave `callback` behind when
`callbackData` popped truthy. -/
def goodButton (f : PyDict JValue) : Bool :=
  !(((dictGet f "callbackData").map JValue.truthy).getD false && hasKey f "callback")

/-- Goodness of a keyboard entry, non-dicts trivially good (they make the
normalization raise, so idempotence is moot for them). -/
def goodBtnVal : JValue → Bool
  | .obj f => goodButton f
  | _ => true

/-- Goodness of a row. -/
def goodRowVal : JValue → Bool
  | .arr btns => btns.all goodBtnVal
  | _ => true

/-- Goodness of a whole `reply_markup` value. -/
def goodMarkupVal : JValue → Bool
  | .obj fields =>
    match dictGet fields "inline_keyboard" with
    | some (.arr rows) => rows.all goodRowVal
    | _ => true
  | _ => true

/-- A button already in canonical form: no alias field at all. -/
def canonicalBtnVal : JValue → Bool
  | .obj f => !(hasKey f "callbackData") && !(hasKey f "callback")
  | _ => false

/-- A row of canonical buttons. -/
def canonicalRowVal : JValue → Bool
  | .arr btns => btns.all canonicalBtnVal
  | _ => false

/-- A markup whose keyboard exists and holds only canonical buttons. -/
def canonicalMarkup : JValue → Bool
  | .obj fields =>
    match dictGet fields "inline_keyboard" with
    | some (.arr rows) => rows.all canonicalRowVal
    | _ => false
  | _ => false

/-- Base URL of the Bot API, `f"https://api.telegram.org/bot\x7btoken\x7d"`. -/
def api_url (token : String) : String :=
  "https://api.telegram.org/bot" ++ token

/-- Outcome of `await fetch(url, ...)` followed by `await resp.json()`: a
parsed JSON document, or the text of the raised transport/parse exception. -/
abbrev FetchOutcome := Except String JValue

/-- The network, as the function the `fetch` call samples:
url, content type and body determine the outcome. -/
abbrev FetchOracle := String → String → String → FetchOutcome

/-- `TelegramBot._api_call`: one POST attempt; the `try/except` turns every
raised exception into the uniform `\x7b"ok": false, "description": ...\x7d`
result, so the embedding is a total function into `JValue`. -/
def api_call (oracle : FetchOracle) (token method contentType body : String) : JValue :=
  match oracle (api_url token ++ "/" ++ method) contentType body with
  | .ok j => j
  | .error e => .obj [("ok", .bool false), ("description", .str e)]

/-- `TelegramBot._post_json`. -/
def post_json (oracle : FetchOracle) (token method : String) (payload : PyDict JValue) : JValue :=
  api_call oracle token method "application/json" (jdump (.obj payload))

/-- Python `payload.update(opts)`. -/
def dictUpdate {α : Type} (payload opts : PyDict α) : PyDict α :=
  opts.foldl (fun acc p => dictSet acc p.1 p.2) payload

/-- The payload `TelegramBot.send_message` hands to `_post_json`
(`Except.error` models `_fix_reply_markup` raising). -/
def send_message (chat_id : JValue) (text : String) (options : Option (PyDict JValue)) :
    Except String (PyDict JValue) :=
  let payload : PyDict JValue := [("chat_id", chat_id), ("text", .str text)]
  match options with
  | none => .ok payload
  | some options =>
    match dictGet options "reply_markup" with
    | none => .ok (dictUpdate payload options)
    | some rmv =>
      match fix_reply_markup rmv with
      | .error e => .error e
      | .ok fixed =>
        let opts := (dictPop options "reply_markup").2
        .ok (dictUpdate (dictSet payload "reply_markup" fixed) opts)

/-- The payload `TelegramBot.edit_message_text` hands to `_post_json`. -/
def edit_message_text (text : String) (options : Option (PyDict JValue)) :
    Except String (PyDict JValue) :=
  let payload : PyDict JValue := [("text", .str text)]
  match options with
  | none => .ok payload
  | some options =>
    match dictGet options "reply_markup" with
    | none => .ok (dictUpdate payload options)
    | some rmv =>
      match fix_reply_markup rmv with
      | .error e => .error e
      | .ok fixed =>
        let opts := (dictPop options "reply_markup").2
        .ok (dictUpdate (dictSet payload "reply_markup" fixed) opts)

/-- The `file_data` argument of `_send_file`: raw bytes or a URL/file id. -/
inductive FileData where
  | bytesData (size : Nat)
  | strData (s : String)

/-- What `_send_file` sends: the multipart form fields (with the file part's
filename and content type), or the JSON payload handed to `_post_json`. -/
inductive SendFilePayload where
  | multipart (fields : PyDict String) (filename contentType : String)
  | jsonPayload (p : PyDict JValue)

/-- `TelegramBot._send_file`.  In the raw-bytes branch every option except
`filename`/`content_type` becomes a form field, dict-valued options going
through `json.dumps` and all others through `str`; in the reference branch
an ordinary JSON payload is built with the reply markup normalized. -/
def send_file (chat_id : JValue) (file_field : String) (file_data : FileData)
    (default_filename default_mimetype : String)
    (options : Option (PyDict JValue)) : Except String SendFilePayload :=
  match file_data with
  | .bytesData _ =>
    let opts := options.getD []
    let fields := opts.foldl (fun acc p =>
      if p.1 == "filename" || p.1 == "content_type" then acc
      else dictSet acc p.1 (match p.2 with
        | .obj d => jdump (.obj d)
        | v => pystr v)) [("chat_id", pystr chat_id)]
    let filename := match dictGet opts "filename" with
      | some v => pystr v
      | none => default_filename
    let contentType := match dictGet opts "content_type" with
      | some v => pystr v
      | none => default_mimetype
    .ok (.multipart fields filename contentType)
  | .strData s =>
    let payload : PyDict JValue := [("chat_id", chat_id), (file_field, .str s)]
    match options with
    | none => .ok (.jsonPayload payload)
    | some options =>
      match dictGet options "reply_markup" with
      | none => .ok (.jsonPayload (dictUpdate payload options))
      | some rmv =>
        match fix_reply_markup rmv with
        | .error e => .error e
        | .ok fixed =>
          let opts := (dictPop options "reply_markup").2
          .ok (.jsonPayload (dictUpdate (dictSet payload "reply_markup" fixed) opts))

/-!
Update Dispatcher: `Dispatcher` in `src/telegram_bot.py`.
-/

/-- The chat a message belongs to. -/
structure Chat where
  id : Int
deriving Repr, DecidableEq

/-- An inbound message (the fields the handlers read). -/
structure Message where
  chat : Chat
  message_id : Int
  text : Option String
deriving Repr, DecidableEq

/-- A callback query.  `data` is `cb.get("data", "")`: an absent field reads
as the empty string.  The handlers dereference `cb["message"]`, so the
originating message is a plain field here. -/
structure CallbackQuery where
  id : String
  message : Message
  data : String
deriving Repr, DecidableEq

/-- One update envelope.  `none` models a key that is absent or bound to a
falsy value, matching the `'message' in update and update['message']` test. -/
structure Update where
  message : Option Message
  callback_query : Option CallbackQuery

/-- `Dispatcher.route_update`.  Each registered handler is awaited in turn in
registration order; the ordered list of handler results is that sequence of
sequential invocations (the constant `bot` argument is omitted). -/
def route_update {τ : Type} (message_handlers : List (Message → τ))
    (callback_query_handlers : List (CallbackQuery → τ)) (update : Update) : List τ :=
  match update.message with
  | some m => message_handlers.map (fun h => h m)
  | none =>
    match update.callback_query with
    | some c => callback_query_handlers.map (fun h => h c)
    | none => []

/-!
Navigation State Machine: the handlers in `src/entry.py`.
-/

/-- The session record, i.e. `json.loads` of the string cached under
`media:<media_id>`.  The cache stores only `json.dumps` output, so parsing
never fails and the composition of `get` and `json.loads` is modelled in one
step.  Numeric JSON fields are kept as their rendered text, which is all the
handlers do with them. -/
structure SessionData where
  title : Option String
  year : Option String
  tagline : Option String
  plot : Option String
  rating : Option String
  votes : Option String
  runtime : Option String
  genres : Option String
  url : Option String
  images : List (String × List (String × List String))
deriving Repr, DecidableEq

/-- The KV namespace `env.BOT_STATE`, read through `json.loads`. -/
abbrev Cache := String → Option SessionData

/-- An inline keyboard button as `entry.py` builds them: a literal dict with
exactly a `text` and a `callback_data` key. -/
structure Button where
  text : String
  callback_data : String
deriving Repr, DecidableEq

/-- An inline keyboard: rows of buttons. -/
abbrev Keyboard := List (List Button)

/-- One outbound Bot API call made by a handler.  `answerCallbackQuery`
carries the optional `text` option and the `show_alert` flag; `kvPut` is
`env.BOT_STATE.put`, which only the search path ever issues. -/
inductive Call where
  | answerCallbackQuery (cbId : String) (text : Option String) (showAlert : Bool)
  | editMessageCaption (chatId msgId : Int) (caption : String) (kb : Keyboard)
  | editMessageMedia (chatId msgId : Int) (mediaUrl : String) (kb : Keyboard)
  | kvPut (key : String) (value : String)
deriving Repr, DecidableEq

/-- The session-expired alert text. -/
def expiredText : String := "Sorry, this session has expired. Please search again."

/-- The alert text of the generic `except` handler of `handle_pagination`,
`f"An error occurred: \x7be\x7d"`. -/
def genericErrText (e : String) : String := "An error occurred: " ++ e

/-- A `nav` navigation token, as the f-strings in the source build it. -/
def navToken (media_type lang : String) (idx : Int) (media_id : String) : String :=
  s!"nav:{media_type}:{lang}:{idx}:{media_id}"

/-- A `view` navigation token. -/
def viewToken (media_type media_id : String) : String :=
  s!"view:{media_type}:{media_id}"

/-- Python `s.split(sep)` for a single-character separator, on the character
list: splitting the empty string gives `[""]`, and every separator
occurrence opens a new field, so the result is never the empty list. -/
def pySplitChar (sep : Char) : List Char → List (List Char)
  | [] => [[]]
  | c :: rest =>
    let r := pySplitChar sep rest
    if c = sep then [] :: r
    else
      match r with
      | [] => [[c]]
      | g :: gs => (c :: g) :: gs

/-- Python `s.split(sep)` on strings. -/
def pySplit (s : String) (sep : Char) : List String :=
  (pySplitChar sep s.data).map String.mk

/-- `parts[0]` of a callback token: total because `split` never returns an
empty list. -/
def actionOf (data : String) : String := (pySplit data ':').headD ""

/-- `parts[-1]` of a callback token: total for the same reason. -/
def mediaIdOf (data : String) : String := (pySplit data ':').getLastD ""

/-- The characters Python strips around an `int()` argument
(`Py_UNICODE_ISSPACE`): the ASCII controls `\t`..`\r` and `\x1c`..`\x1f`,
the space, NEL, NBSP, and the Unicode Zs/Zl/Zp space characters. -/
def pyIsSpace (c : Char) : Bool :=
  let n := c.toNat
  (0x09 ≤ n && n ≤ 0x0D) || (0x1C ≤ n && n ≤ 0x1F) || n == 0x20 || n == 0x85 ||
  n == 0xA0 || n == 0x1680 || (0x2000 ≤ n && n ≤ 0x200A) || n == 0x2028 ||
  n == 0x2029 || n == 0x202F || n == 0x205F || n == 0x3000

/-- First code points of the decimal-digit (Unicode category Nd) runs, each
ten characters long, as of Unicode 15.0 — the table CPython 3.12 consults
when `int()` converts non-ASCII decimal digits. -/
def pyDigitRangeStarts : List Nat :=
  [0x30, 0x660, 0x6F0, 0x7C0, 0x966, 0x9E6, 0xA66, 0xAE6, 0xB66, 0xBE6,
   0xC66, 0xCE6, 0xD66, 0xDE6, 0xE50, 0xED0, 0xF20, 0x1040, 0x1090, 0x17E0,
   0x1810, 0x1946, 0x19D0, 0x1A80, 0x1A90, 0x1B50, 0x1BB0, 0x1C40, 0x1C50,
   0xA620, 0xA8D0, 0xA900, 0xA9D0, 0xA9F0, 0xAA50, 0xABF0, 0xFF10,
   0x104A0, 0x10D30, 0x11066, 0x110F0, 0x11136, 0x111D0, 0x112F0, 0x11450,
   0x114D0, 0x11650, 0x116C0, 0x11730, 0x118E0, 0x11950, 0x11C50, 0x11D50,
   0x11DA0, 0x11F50, 0x16A60, 0x16AC0, 0x16B50, 0x1D7CE, 0x1D7D8, 0x1D7E2,
   0x1D7EC, 0x1D7F6, 0x1E140, 0x1E2F0, 0x1E4F0, 0x1E950, 0x1FBF0]

/-- The decimal value of a character, for every Unicode decimal digit that
Python `int()` accepts (`Py_UNICODE_TODECIMAL`); `none` for everything
else. -/
def pyDigit (c : Char) : Option Nat :=
  let n := c.toNat
  (pyDigitRangeStarts.find? (fun s => s ≤ n && n < s + 10)).map (fun s => n - s)

/-- The digit tail of an `int()` literal after its first digit: further
digits, with single underscores allowed between two digits only
(PEP 515 digit grouping). -/
def pyIntCore (acc : Nat) : List Char → Option Nat
  | [] => some acc
  | '_' :: c :: rest =>
    match pyDigit c with
    | some d => pyIntCore (acc * 10 + d) rest
    | none => none
  | c :: rest =>
    match pyDigit c with
    | some d => pyIntCore (acc * 10 + d) rest
    | none => none

/-- The unsigned body of an `int()` literal: a digit, then `pyIntCore`; a
leading underscore or an empty body is a `ValueError`. -/
def pyIntBody : List Char → Option Nat
  | [] => none
  | c :: rest =>
    match pyDigit c with
    | some d => pyIntCore d rest
    | none => none

/-- Python `int(s)` in base 10: surrounding Python whitespace is stripped,
an optional ASCII sign is read, and the rest must be Unicode decimal digits
with optional single grouping underscores between digits.  The characters
are handled as a list so the function evaluates by reduction. -/
def pyInt (s : String) : Option Int :=
  let t := ((s.data.dropWhile pyIsSpace).reverse.dropWhile pyIsSpace).reverse
  match t with
  | '-' :: rest => (pyIntBody rest).map (fun n => -(n : Int))
  | '+' :: rest => (pyIntBody rest).map (fun n => (n : Int))
  | _ => (pyIntBody t).map (fun n => (n : Int))

/-- Python `str.capitalize()`: first character upper-cased, the rest lower. -/
def pyCapitalize (s : String) : String :=
  match s.data with
  | [] => ""
  | c :: cs => String.mk (c.toUpper :: cs.map Char.toLower)

/-- Rendering of an optional record field read with a bare `.get`, as an
f-string shows it: an absent field prints as `None`. -/
def pyStrOpt : Option String → String
  | some s => s
  | none => "None"

/-- The image sequence a pagination request works on:
`data.get("images", \x7b\x7d).get(media_type, \x7b\x7d).get(lang, [])`. -/
def imageListOf (d : SessionData) (media_type lang : String) : List String :=
  (dictGet ((dictGet d.images media_type).getD []) lang).getD []

/-- The navigation row `row1` built by `handle_pagination`: an optional Prev
button, the non-actionable index indicator, an optional Next button. -/
def paginationRow1 (media_type lang media_id : String) (new_index total_images : Int) :
    List Button :=
  (if new_index > 0 then
    [⟨"⬅️ Prev", navToken media_type lang (new_index - 1) media_id⟩] else []) ++
  [⟨s!"{new_index + 1}/{total_images}", "noop"⟩] ++
  (if new_index < total_images - 1 then
    [⟨"Next ➡️", navToken media_type lang (new_index + 1) media_id⟩] else [])

/-- The full keyboard `handle_pagination` attaches: the navigation row and
the back-to-languages row. -/
def paginationKb (media_type lang media_id : String) (new_index total_images : Int) :
    Keyboard :=
  [paginationRow1 media_type lang media_id new_index total_images,
   [⟨"« Back to Languages", viewToken media_type media_id⟩]]

/-- `handle_pagination` in `entry.py`: the list of outbound calls it makes,
and the escaping exception if one is raised.  The whole body sits in a
`try/except` whose handler answers the callback with a generic alert, so the
second component is always `none`; within the `try`, the unpack of `parts`
and `int(...)` run before any call, a KV miss or an empty image list answer
and return, and the success path edits the message then acknowledges. -/
def handle_pagination (cache : Cache) (cb : CallbackQuery) (parts : List String) :
    List Call × Option String :=
  match parts with
  | [_, media_type, lang, idxStr, media_id] =>
    match pyInt idxStr with
    | none =>
      ([.answerCallbackQuery cb.id
          (some (genericErrText "invalid literal for int() with base 10")) true], none)
    | some current_index =>
      match cache ("media:" ++ media_id) with
      | none => ([.answerCallbackQuery cb.id (some expiredText) true], none)
      | some d =>
        let image_list := imageListOf d media_type lang
        let total_images : Int := image_list.length
        if image_list.isEmpty then
          ([.answerCallbackQuery cb.id (some "No images found for this selection.") false], none)
        else
          let new_index := max 0 (min current_index (total_images - 1))
          match image_list[new_index.toNat]? with
          | some url =>
            ([.editMessageMedia cb.message.chat.id cb.message.message_id url
                (paginationKb media_type lang media_id new_index total_images),
              .answerCallbackQuery cb.id none false], none)
          | none =>
            ([.answerCallbackQuery cb.id
                (some (genericErrText "list index out of range")) true], none)
  | _ =>
    ([.answerCallbackQuery cb.id
        (some (genericErrText "cannot unpack parts")) true], none)

/-- The main-menu keyboard, as rebuilt by the `back:main` branch. -/
def mainMenuKeyboard (media_id : String) : Keyboard :=
  [[⟨"🖼️ View Posters", s!"view:posters:{media_id}"⟩,
    ⟨"🏞️ View Backdrops", s!"view:backdrops:{media_id}"⟩],
   [⟨"ℹ️ Full Details", s!"details:{media_id}"⟩]]

/-- The caption of the main-menu view:
`f"🎬 *\x7btitle\x7d* (\x7byear\x7d)\n\n\x7bplot[:800]\x7d"` with `N/A`
defaults and the plot truncated to 800 characters. -/
def mainMenuCaption (d : SessionData) : String :=
  let t := d.title.getD "N/A"
  let y := d.year.getD "N/A"
  let p := (d.plot.getD "No summary available.").take 800
  s!"🎬 *{t}* ({y})\n\n{p}"

/-- The language-selection rows the `view` branch builds: one row per
language, in `sorted(...)` order of the language codes, then the
back-to-main row.  Each language lookup succeeds because the language is
drawn from the keys of the same mapping. -/
def langRows (media_type media_id : String)
    (imgs : List (String × List String)) : Keyboard :=
  let langs := (imgs.map Prod.fst).mergeSort (fun a b => a ≤ b)
  langs.map (fun lang =>
    let lang_name := if lang.length = 2 then lang.toUpper else "No Language"
    let count := ((dictGet imgs lang).getD []).length
    [⟨s!"{lang_name} ({count})", navToken media_type lang 0 media_id⟩]) ++
  [[⟨"« Back to Main Menu", s!"back:main:{media_id}"⟩]]

/-- The caption of the language-selection view. -/
def viewCaption (d : SessionData) (media_type : String) : String :=
  let t := pyStrOpt d.title
  let mt := pyCapitalize media_type
  s!"Select a language for *{t}* {mt}:"

/-- The details text the `details` branch builds. -/
def detailsText (d : SessionData) : String :=
  let t := pyStrOpt d.title
  let y := pyStrOpt d.year
  let tl := d.tagline.getD ""
  let p := d.plot.getD "N/A"
  let r := d.rating.getD "N/A"
  let v := d.votes.getD "N/A"
  let rt := d.runtime.getD "N/A"
  let g := d.genres.getD "N/A"
  let u := pyStrOpt d.url
  s!"🎬 *{t}* ({y})\n\n*{tl}*\n\n📖 *Plot:* {p}\n\n⭐ *Rating:* {r} ({v} votes)\n🕒 *Runtime:* {rt}\n🎭 *Genres:* {g}\n\n🔗 [View on TMDB]({u})"

/-- `handle_callback` in `entry.py`: the outbound calls it makes and the
escaping exception if one is raised (the function has no `try/except` of its
own).  `parts[0]` and `parts[-1]` are total because `str.split` never
returns an empty list; `parts[1]` in the `view` and `back` branches can
raise `IndexError`, which propagates. -/
def handle_callback (cache : Cache) (cb : CallbackQuery) : List Call × Option String :=
  let parts := pySplit cb.data ':'
  let action := actionOf cb.data
  let chatId := cb.message.chat.id
  let msgId := cb.message.message_id
  if action = "noop" then
    ([.answerCallbackQuery cb.id none false], none)
  else
    let media_id := mediaIdOf cb.data
    match cache ("media:" ++ media_id) with
    | none => ([.answerCallbackQuery cb.id (some expiredText) true], none)
    | some d =>
      if action = "view" then
        match parts[1]? with
        | none => ([], some "IndexError: list index out of range")
        | some media_type =>
          let imgs := (dictGet d.images media_type).getD []
          ([.editMessageCaption chatId msgId (viewCaption d media_type)
              (langRows media_type media_id imgs),
            .answerCallbackQuery cb.id none false], none)
      else if action = "nav" then
        handle_pagination cache cb parts
      else if action = "details" then
        ([.editMessageCaption chatId msgId (detailsText d)
            [[⟨"« Back to Main Menu", s!"back:main:{media_id}"⟩]],
          .answerCallbackQuery cb.id none false], none)
      else if action = "back" then
        match parts[1]? with
        | none => ([], some "IndexError: list index out of range")
        | some destination =>
          if destination = "main" then
            ([.editMessageCaption chatId msgId (mainMenuCaption d)
                (mainMenuKeyboard media_id),
              .answerCallbackQuery cb.id none false], none)
          else ([], none)
      else ([], none)

/-- A Python value held in a dict field or list slot: an immutable scalar,
or a reference to a heap object. -/
inductive PyVal where
  | str (s : String)
  | num (n : Int)
  | bool (b : Bool)
  | noneV
  | ref (a : Nat)
deriving Repr, DecidableEq

/-- A heap object: a dict or a list. -/
inductive PyObj where
  | dict (fields : PyDict PyVal)
  | list (elems : List PyVal)
deriving Repr, DecidableEq

/-- The heap: object `a` lives at index `a`; allocation appends. -/
abbrev Heap := List PyObj

/-- Dereference an address. -/
def Heap.get (h : Heap) (a : Nat) : Option PyObj := h[a]?

/-- Allocate a fresh object. -/
def Heap.alloc (h : Heap) (o : PyObj) : Heap × Nat := (h ++ [o], h.length)

/-- Truthiness of a `PyVal` in a heap: containers count their elements (a
dangling reference cannot arise and is given an arbitrary value). -/
def PyVal.truthyIn (h : Heap) : PyVal → Bool
  | .str s => s != ""
  | .num n => n != 0
  | .bool b => b
  | .noneV => false
  | .ref a =>
    match h.get a with
    | some (.dict fs) => !fs.isEmpty
    | some (.list xs) => !xs.isEmpty
    | none => true

/-- The button step of `_fix_reply_markup` on the heap: `dict(btn)` makes a
fresh dict, which the two pops and the `callback_data` assignment then
mutate; the copy is allocated here with those in-place edits already
applied, which produces the same heap as allocating first and editing the
fresh address. -/
def fixButtonH (h : Heap) (btnRef : PyVal) : Except String (Heap × PyVal) :=
  match btnRef with
  | .ref a =>
    match h.get a with
    | some (.dict fields) =>
      let (h1, a1) := h.alloc (.dict (fixButtonG (PyVal.truthyIn h) fields))
      .ok (h1, .ref a1)
    | _ => .error "TypeError: button is not a dict"
  | _ => .error "TypeError: button is not a dict"

/-- Threading of a fallible per-element step through a list, as the `for`
loops do: left to right, stopping at the first raise. -/
def mapHeap (f : Heap → PyVal → Except String (Heap × PyVal)) :
    Heap → List PyVal → Except String (Heap × List PyVal)
  | h, [] => .ok (h, [])
  | h, v :: vs =>
    match f h v with
    | .error e => .error e
    | .ok (h1, v1) =>
      match mapHeap f h1 vs with
      | .error e => .error e
      | .ok (h2, vs1) => .ok (h2, v1 :: vs1)

/-- The row step: `fixed_row` is a fresh list of the fresh button copies. -/
def fixRowH (h : Heap) (rowRef : PyVal) : Except String (Heap × PyVal) :=
  match rowRef with
  | .ref a =>
    match h.get a with
    | some (.list btns) =>
      match mapHeap fixButtonH h btns with
      | .error e => .error e
      | .ok (h1, newBtns) =>
        let (h2, a2) := h1.alloc (.list newBtns)
        .ok (h2, .ref a2)
    | _ => .error "TypeError: row is not a list"
  | _ => .error "TypeError: row is not a list"

/-- `_fix_reply_markup` on the heap.  A falsy argument or a dict without
`"inline_keyboard"` is returned as the same reference; otherwise
`rm = dict(reply_markup)` allocates a fresh top-level dict, fresh rows and
button copies are built, `fixed_kb` is allocated, and the final
`rm["inline_keyboard"] = fixed_kb` writes to the fresh dict's address only.
Truthy non-dict arguments never occur at the call sites and raise here. -/
def fix_reply_markupH (h : Heap) (rmRef : Option PyVal) :
    Except String (Heap × Option PyVal) :=
  match rmRef with
  | none => .ok (h, none)
  | some v =>
    if ¬ v.truthyIn h then .ok (h, some v)
    else
      match v with
      | .ref a =>
        match h.get a with
        | some (.dict fields) =>
          if ¬ hasKey fields "inline_keyboard" then .ok (h, some v)
          else
            let (h1, rmCopy) := h.alloc (.dict fields)
            match dictGet fields "inline_keyboard" with
            | some (.ref kbA) =>
              match h1.get kbA with
              | some (.list rows) =>
                match mapHeap fixRowH h1 rows with
                | .error e => .error e
                | .ok (h2, newRows) =>
                  let (h3, kbNew) := h2.alloc (.list newRows)
                  let h4 := h3.set rmCopy
                    (.dict (dictSet fields "inline_keyboard" (.ref kbNew)))
                  .ok (h4, some (.ref rmCopy))
              | _ => .error "TypeError: inline_keyboard is not a list"
            | _ => .error "TypeError: inline_keyboard is not a list"
        | _ => .error "TypeError: reply_markup is not a dict"
      | _ => .error "TypeError: reply_markup is not a dict"

/-!
Concrete data for witnesses and counterexamples.
-/

/-- A session record with three English posters. -/
def recW : SessionData :=
  ⟨some "T", some "2020", none, some "Plot", none, none, none, none, none,
   [("posters", [("en", ["u0", "u1", "u2"])])]⟩

/-- A cache holding `recW` under `media:7`. -/
def cacheW : Cache := fun k => if k = "media:7" then some recW else none

/-- The empty cache. -/
def cacheEmpty : Cache := fun _ => none

/-- A cache holding a record under the tag-named key `media:back`. -/
def cacheBack : Cache := fun k => if k = "media:back" then some recW else none

/-- A callback query with the given token. -/
def cbOf (s : String) : CallbackQuery := ⟨"cb1", ⟨⟨5⟩, 10, none⟩, s⟩

/-- A concrete message. -/
def msgW : Message := ⟨⟨5⟩, 10, some "hello"⟩

/-- Two concrete message handlers. -/
def mhs : List (Message → Nat) := [fun _ => 1, fun _ => 2]

/-- An oracle whose fetch always fails. -/
def oracleFail : FetchOracle := fun _ _ _ => .error "boom"

/-- A button carrying both alias fields at once. -/
def btnDouble : PyDict JValue := [("callbackData", .str "x"), ("callback", .str "y")]

/-- A markup whose only button carries both alias fields. -/
def rmDouble : JValue := .obj [("inline_keyboard", .arr [.arr [.obj btnDouble]])]

/-- What one normalization pass makes of `rmDouble`. -/
def rmDouble1 : JValue :=
  .obj [("inline_keyboard", .arr [.arr [.obj
    [("callback", .str "y"), ("callback_data", .str "x")]]])]

/-- What a second normalization pass makes of `rmDouble1`. -/
def rmDouble2 : JValue :=
  .obj [("inline_keyboard", .arr [.arr [.obj [("callback_data", .str "y")]]])]

/-- A markup whose single button carries only the `callbackData` alias. -/
def rmAlias : JValue := .obj [("inline_keyboard", .arr [.arr [.obj [("callbackData", .str "x")]]])]

/-- The normalization of `rmAlias`. -/
def rmAliasFixed : JValue :=
  .obj [("inline_keyboard", .arr [.arr [.obj [("callback_data", .str "x")]]])]

/-- The fields of an already-canonical markup. -/
def rmCanonFields : PyDict JValue :=
  [("inline_keyboard", .arr [.arr [.obj [("text", .str "a"), ("callback_data", .str "x")]]])]

/-- An already-canonical markup. -/
def rmCanon : JValue := .obj rmCanonFields

/-- A heap holding a well-formed markup: the dict at 0 is the markup, whose
keyboard is the list at 1, with one row at 2 holding one button at 3. -/
def heapW : Heap :=
  [.dict [("inline_keyboard", .ref 1)],
   .list [.ref 2],
   .list [.ref 3],
   .dict [("text", .str "a"), ("callbackData", .str "x")]]

/-- The heap `fix_reply_markupH` produces from `heapW`: the four original
objects untouched, the four fresh copies appended. -/
def heapWres : Heap :=
  [.dict [("inline_keyboard", .ref 1)],
   .list [.ref 2],
   .list [.ref 3],
   .dict [("text", .str "a"), ("callbackData", .str "x")],
   .dict [("inline_keyboard", .ref 7)],
   .dict [("text", .str "a"), ("callback_data", .str "x")],
   .list [.ref 5],
   .list [.ref 6]]

/-- Options carrying an alias markup and one scalar option. -/
def optsW : PyDict JValue :=
  [("reply_markup", rmAlias), ("parse_mode", .str "Markdown")]

/-- The payload `send_message` builds from `optsW`. -/
def pW : PyDict JValue :=
  [("chat_id", .num 1), ("text", .str "hello"),
   ("reply_markup", rmAliasFixed), ("parse_mode", .str "Markdown")]

end PosterBot

namespace PosterBot

/-!
Shared lemmas about the dict operations.
-/

theorem dictGet_cons {α : Type} (q : String × α) (tl : PyDict α) (k : String) :
    dictGet (q :: tl) k = if q.1 == k then some q.2 else dictGet tl k := by
  simp only [dictGet, List.find?]
  cases hq : q.1 == k <;> simp [hq]

theorem hasKey_cons {α : Type} (q : String × α) (tl : PyDict α) (k : String) :
    hasKey (q :: tl) k = (q.1 == k || hasKey tl k) := by
  simp [hasKey]

theorem dictGet_of_hasKey_eq_false {α : Type} {d : PyDict α} {k : String}
    (h : hasKey d k = false) : dictGet d k = none := by
  induction d with
  | nil => rfl
  | cons p tl ih =>
    rw [hasKey_cons, Bool.or_eq_false_iff] at h
    rw [dictGet_cons, if_neg (by simp [h.1]), ih h.2]

theorem hasKey_of_dictGet_eq_some {α : Type} {d : PyDict α} {k : String} {v : α}
    (h : dictGet d k = some v) : hasKey d k = true := by
  by_contra hk
  rw [dictGet_of_hasKey_eq_false (by simpa using hk)] at h
  exact Option.noConfusion h

theorem dictGet_map_setKey_self {α : Type} {d : PyDict α} {k : String} (v : α)
    (hk : hasKey d k = true) :
    dictGet (d.map (fun p => if p.1 == k then (k, v) else p)) k = some v := by
  induction d with
  | nil => simp [hasKey] at hk
  | cons q tl ih =>
    rw [hasKey_cons, Bool.or_eq_true] at hk
    rw [List.map_cons]
    cases hq : q.1 == k with
    | true => rw [if_pos rfl, dictGet_cons, if_pos (by simp)]
    | false =>
      rw [if_neg (by simp), dictGet_cons, if_neg (by simp [hq])]
      exact ih (hk.resolve_left (by simp [hq]))

theorem dictGet_map_setKey_ne {α : Type} (d : PyDict α) (k k' : String) (v : α)
    (h : k' ≠ k) :
    dictGet (d.map (fun p => if p.1 == k' then (k', v) else p)) k = dictGet d k := by
  induction d with
  | nil => rfl
  | cons q tl ih =>
    rw [List.map_cons]
    cases hq : q.1 == k' with
    | true =>
      rw [if_pos rfl, dictGet_cons, dictGet_cons, if_neg (by simp [h])]
      rw [beq_iff_eq] at hq
      rw [if_neg (by simp [hq, h]), ih]
    | false =>
      rw [if_neg (by simp), dictGet_cons, dictGet_cons]
      cases hqk : q.1 == k with
      | true => rfl
      | false => rw [if_neg (by simp [hqk]), if_neg (by simp [hqk]), ih]

theorem dictGet_append_single_self {α : Type} {d : PyDict α} {k : String} (v : α)
    (hk : hasKey d k = false) : dictGet (d ++ [(k, v)]) k = some v := by
  induction d with
  | nil => simp [dictGet_cons]
  | cons q tl ih =>
    rw [hasKey_cons, Bool.or_eq_false_iff] at hk
    rw [List.cons_append, dictGet_cons, if_neg (by simp [hk.1]), ih hk.2]

theorem dictGet_append_single_ne {α : Type} (d : PyDict α) (k k' : String) (v : α)
    (h : k' ≠ k) : dictGet (d ++ [(k', v)]) k = dictGet d k := by
  induction d with
  | nil => simp [dictGet_cons, dictGet, h]
  | cons q tl ih =>
    rw [List.cons_append, dictGet_cons, dictGet_cons]
    cases hqk : q.1 == k with
    | true => rfl
    | false => rw [if_neg (by simp), if_neg (by simp), ih]

theorem dictGet_dictSet_self {α : Type} (d : PyDict α) (k : String) (v : α) :
    dictGet (dictSet d k v) k = some v := by
  unfold dictSet
  cases h : hasKey d k with
  | true => rw [if_pos rfl]; exact dictGet_map_setKey_self v h
  | false => rw [if_neg (by simp)]; exact dictGet_append_single_self v h

theorem dictGet_dictSet_ne {α : Type} (d : PyDict α) (k k' : String) (v : α)
    (h : k' ≠ k) : dictGet (dictSet d k' v) k = dictGet d k := by
  unfold dictSet
  cases hk : hasKey d k' with
  | true => rw [if_pos rfl]; exact dictGet_map_setKey_ne d k k' v h
  | false => rw [if_neg (by simp)]; exact dictGet_append_single_ne d k k' v h

theorem dictGet_dictUpdate_not_has {α : Type} (p opts : PyDict α) (k : String)
    (h : hasKey opts k = false) : dictGet (dictUpdate p opts) k = dictGet p k := by
  induction opts generalizing p with
  | nil => rfl
  | cons q tl ih =>
    rw [hasKey_cons, Bool.or_eq_false_iff] at h
    simp only [dictUpdate, List.foldl_cons]
    have step : dictGet (dictSet p q.1 q.2) k = dictGet p k :=
      dictGet_dictSet_ne p k q.1 q.2 (by simpa using h.1)
    rw [← step]
    exact ih (dictSet p q.1 q.2) h.2

theorem hasKey_dictPop_ne {α : Type} (d : PyDict α) (k : String) :
    hasKey ((dictPop d k).2) k = false := by
  induction d with
  | nil => rfl
  | cons q tl ih =>
    simp only [dictPop, List.filter_cons] at ih ⊢
    cases hq : q.1 != k with
    | true =>
      rw [if_pos rfl, hasKey_cons, Bool.or_eq_false_iff]
      exact ⟨by simpa using hq, ih⟩
    | false => rw [if_neg (by simp)]; exact ih

/-!
C3: transport failures become uniform results.
-/

/-- C3: the API-call operation never raises — the embedding `api_call` is a
total function — and every transport or parse failure of the fetch is
returned as a result object whose `ok` field is `false` and whose
`description` field carries the error text, inspectable by the caller. -/
theorem api_call_error_uniform_result
    (oracle : FetchOracle) (token method contentType body e : String)
    (h : oracle (api_url token ++ "/" ++ method) contentType body = .error e) :
    api_call oracle token method contentType body =
      .obj [("ok", .bool false), ("description", .str e)] ∧
    dictGet [("ok", JValue.bool false), ("description", JValue.str e)] "ok" =
      some (.bool false) ∧
    dictGet [("ok", JValue.bool false), ("description", JValue.str e)] "description" =
      some (.str e) := by
  refine ⟨?_, rfl, rfl⟩
  unfold api_call
  rw [h]

/-- Witness for C3 at a concrete failing oracle. -/
theorem api_call_error_uniform_result_witness :
    oracleFail (api_url "tok" ++ "/" ++ "sendMessage") "application/json" "x" =
      .error "boom" ∧
    api_call oracleFail "tok" "sendMessage" "application/json" "x" =
      .obj [("ok", .bool false), ("description", .str "boom")] :=
  ⟨rfl, (api_call_error_uniform_result oracleFail "tok" "sendMessage"
      "application/json" "x" "boom" rfl).1⟩

/-!
C5: dispatcher routing.
-/

/-- C5: exactly one branch of `route_update` fires per update: when the
update carries a message, every registered message handler is invoked in
registration order, one after the other (the ordered result list is that
sequence of sequential awaited invocations) and no callback handler runs;
otherwise, when it carries a callback query, every registered callback
handler is invoked the same way. -/
theorem route_update_branches {τ : Type} (mh : List (Message → τ))
    (ch : List (CallbackQuery → τ)) (u : Update) :
    (∀ m, u.message = some m → route_update mh ch u = mh.map (fun h => h m)) ∧
    (u.message = none → ∀ c, u.callback_query = some c →
      route_update mh ch u = ch.map (fun h => h c)) := by
  constructor
  · intro m hm
    unfold route_update
    rw [hm]
  · intro hm c hc
    unfold route_update
    rw [hm, hc]

/-- Witness for C5: a concrete update carrying a message runs the two
registered message handlers in order. -/
theorem route_update_branches_witness :
    (Update.mk (some msgW) none).message = some msgW ∧
    route_update mhs ([] : List (CallbackQuery → Nat)) ⟨some msgW, none⟩ =
      mhs.map (fun h => h msgW) :=
  ⟨rfl, (route_update_branches mhs [] ⟨some msgW, none⟩).1 msgW rfl⟩

/-!
C1 and C2: the image view of `handle_pagination`.
-/

/-- C4: for a callback whose token is a `view`, `nav`, `details` or `back`
action, a cache miss for `media:<media_id>` makes the handler answer the
query with the session-expired alert (shown as an alert) and nothing else:
no message edit, no state write, and no raised exception. -/
theorem callback_cache_miss_session_expired
    (cache : Cache) (cb : CallbackQuery)
    (hact : actionOf cb.data = "view" ∨
      actionOf cb.data = "nav" ∨
      actionOf cb.data = "details" ∨
      actionOf cb.data = "back")
    (hmiss : cache ("media:" ++ mediaIdOf cb.data) = none) :
    handle_callback cache cb =
      ([.answerCallbackQuery cb.id (some expiredText) true], none) := by
  have hne : ¬ actionOf cb.data = "noop" := by
    rcases hact with h | h | h | h <;> rw [h] <;> decide
  simp only [handle_callback, hmiss]
  rw [if_neg hne]

/-- Witness for C4: a concrete `view` token against the empty cache. -/
theorem callback_cache_miss_session_expired_witness :
    (actionOf (cbOf "view:posters:99").data = "view" ∨
      actionOf (cbOf "view:posters:99").data = "nav" ∨
      actionOf (cbOf "view:posters:99").data = "details" ∨
      actionOf (cbOf "view:posters:99").data = "back") ∧
    cacheEmpty ("media:" ++ mediaIdOf (cbOf "view:posters:99").data) = none ∧
    handle_callback cacheEmpty (cbOf "view:posters:99") =
      ([.answerCallbackQuery (cbOf "view:posters:99").id (some expiredText) true], none) :=
  ⟨by decide, by decide,
    callback_cache_miss_session_expired cacheEmpty (cbOf "view:posters:99")
      (by decide) (by decide)⟩

/-!
C8: acknowledgment discipline of `handle_callback`.
-/

/-- C9 counterexample: the claim fails in both directions.  The malformed
two-field `view` token is answered with the session-expired alert — whose
text does not begin with the generic `An error occurred: ` prefix — not
with a parse-point generic alert; and the single-field `back` token, when
its tag-named cache key is populated, lets an `IndexError` escape the
callback handler. -/
theorem malformed_token_not_generic_cex :
    handle_callback cacheEmpty (cbOf "view:posters") =
      ([.answerCallbackQuery (cbOf "view:posters").id (some expiredText) true], none) ∧
    ("An error occurred: ").data.isPrefixOf expiredText.data = false ∧
    handle_callback cacheBack (cbOf "back") =
      ([], some "IndexError: list index out of range") := by
  decide

/-- C9 amended: a `nav` token with an unexpected field count or a
non-integer index field, whose media id (last field) is cached, is caught
at the point of parsing inside `handle_pagination` and surfaced as the
generic `An error occurred: ...` alert; no exception escapes the callback
handler for these tokens. -/
theorem malformed_nav_generic_alert (cache : Cache) (cb : CallbackQuery)
    (hnav : actionOf cb.data = "nav")
    (hhit : ∃ d, cache ("media:" ++ mediaIdOf cb.data) = some d)
    (hmal : (pySplit cb.data ':').length ≠ 5 ∨
      (∃ s, (pySplit cb.data ':')[3]? = some s ∧ pyInt s = none)) :
    ∃ e, handle_callback cache cb =
      ([.answerCallbackQuery cb.id (some (genericErrText e)) true], none) := by
  obtain ⟨d, hd⟩ := hhit
  have hval : handle_callback cache cb =
      handle_pagination cache cb (pySplit cb.data ':') := by
    simp [handle_callback, hnav, hd]
  rw [hval]
  generalize hp : pySplit cb.data ':' = parts at hmal ⊢
  rcases parts with _ | ⟨a, _ | ⟨b, _ | ⟨c, _ | ⟨s, _ | ⟨e, _ | ⟨f, tl⟩⟩⟩⟩⟩⟩
  · exact ⟨"cannot unpack parts", rfl⟩
  · exact ⟨"cannot unpack parts", rfl⟩
  · exact ⟨"cannot unpack parts", rfl⟩
  · exact ⟨"cannot unpack parts", rfl⟩
  · exact ⟨"cannot unpack parts", rfl⟩
  · rcases hmal with hlen | ⟨s', h3, hpy⟩
    · simp at hlen
    · simp only [List.getElem?_cons_succ, List.getElem?_cons_zero] at h3
      cases h3
      refine ⟨"invalid literal for int() with base 10", ?_⟩
      simp [handle_pagination, hpy]
  · exact ⟨"cannot unpack parts", rfl⟩

/-- Witness for C9 amended: a `nav` token with a non-integer index field and
a cached media id yields the generic alert. -/
theorem malformed_nav_generic_alert_witness :
    actionOf (cbOf "nav:posters:en:zz:7").data = "nav" ∧
    (∃ d, cacheW ("media:" ++ mediaIdOf (cbOf "nav:posters:en:zz:7").data) = some d) ∧
    ((pySplit (cbOf "nav:posters:en:zz:7").data ':').length ≠ 5 ∨
      (∃ s, (pySplit (cbOf "nav:posters:en:zz:7").data ':')[3]? = some s ∧ pyInt s = none)) ∧
    (∃ e, handle_callback cacheW (cbOf "nav:posters:en:zz:7") =
      ([.answerCallbackQuery (cbOf "nav:posters:en:zz:7").id
          (some (genericErrText e)) true], none)) :=
  ⟨by decide, ⟨recW, by decide⟩, Or.inr ⟨"zz", by decide, by decide⟩,
    malformed_nav_generic_alert cacheW (cbOf "nav:posters:en:zz:7") (by decide)
      ⟨recW, by decide⟩ (Or.inr ⟨"zz", by decide, by decide⟩)⟩

/-!
C6: further dict lemmas, towards idempotence of the markup normalization.
-/

theorem hasKey_append {α : Type} (d e : PyDict α) (k : String) :
    hasKey (d ++ e) k = (hasKey d k || hasKey e k) := by
  simp [hasKey, List.any_append]

theorem hasKey_filter_false {α : Type} {d : PyDict α} {k : String}
    (pred : String × α → Bool) (h : hasKey d k = false) :
    hasKey (d.filter pred) k = false := by
  simp only [hasKey, List.any_eq_false] at h ⊢
  intro p hp
  exact h p (List.mem_of_mem_filter hp)

theorem dictPop_of_not_hasKey {α : Type} {d : PyDict α} {k : String}
    (h : hasKey d k = false) : dictPop d k = (none, d) := by
  unfold dictPop
  rw [dictGet_of_hasKey_eq_false h, List.filter_eq_self.mpr]
  intro p hp
  simp only [hasKey, List.any_eq_false] at h
  simpa using h p hp

theorem hasKey_dictPop_other {α : Type} {d : PyDict α} (k : String) {k' : String}
    (h : hasKey d k' = false) : hasKey ((dictPop d k).2) k' = false := by
  unfold dictPop
  exact hasKey_filter_false _ h

theorem hasKey_dictSet_other {α : Type} {d : PyDict α} {k k' : String} (v : α)
    (hne : k ≠ k') (h : hasKey d k' = false) :
    hasKey (dictSet d k v) k' = false := by
  unfold dictSet
  simp only [hasKey, List.any_eq_false] at h
  cases hk : hasKey d k with
  | true =>
    rw [if_pos rfl]
    simp only [hasKey, List.any_eq_false]
    intro p hp
    obtain ⟨q, hq, hfq⟩ := List.mem_map.mp hp
    by_cases hqk : q.1 == k
    · rw [if_pos hqk] at hfq
      subst hfq
      simpa using hne
    · rw [if_neg hqk] at hfq
      subst hfq
      exact h q hq
  | false =>
    rw [if_neg (by simp)]
    simp only [hasKey, List.any_eq_false, List.mem_append, List.mem_singleton]
    rintro p (hp | hp)
    · exact h p hp
    · subst hp
      simpa using hne

theorem map_setKey_id_of_not_hasKey {α : Type} {d : PyDict α} {k : String} (v : α)
    (h : hasKey d k = false) :
    d.map (fun p => if p.1 == k then (k, v) else p) = d := by
  induction d with
  | nil => rfl
  | cons q tl ih =>
    rw [hasKey_cons, Bool.or_eq_false_iff] at h
    rw [List.map_cons, if_neg (by simp [h.1]), ih h.2]

theorem map_setKey_idem {α : Type} (d : PyDict α) (k : String) (v : α) :
    (d.map (fun p => if p.1 == k then (k, v) else p)).map
      (fun p => if p.1 == k then (k, v) else p) =
    d.map (fun p => if p.1 == k then (k, v) else p) := by
  induction d with
  | nil => rfl
  | cons q tl ih =>
    rw [List.map_cons, List.map_cons, ih]
    cases hq : q.1 == k with
    | true => rw [if_pos rfl, if_pos (by simp)]
    | false => simp [hq]

theorem hasKey_dictSet_self {α : Type} (d : PyDict α) (k : String) (v : α) :
    hasKey (dictSet d k v) k = true :=
  hasKey_of_dictGet_eq_some (dictGet_dictSet_self d k v)

theorem dictSet_dictSet_same {α : Type} (d : PyDict α) (k : String) (v : α) :
    dictSet (dictSet d k v) k v = dictSet d k v := by
  cases hk : hasKey d k with
  | true =>
    have h1 : dictSet d k v = d.map (fun p => if p.1 == k then (k, v) else p) := by
      unfold dictSet
      rw [if_pos hk]
    have h2 : hasKey (d.map (fun p => if p.1 == k then (k, v) else p)) k = true := by
      rw [← h1]
      exact hasKey_dictSet_self d k v
    rw [h1]
    unfold dictSet
    rw [if_pos h2]
    exact map_setKey_idem d k v
  | false =>
    have h1 : dictSet d k v = d ++ [(k, v)] := by
      unfold dictSet
      rw [if_neg (by simp [hk])]
    have h2 : hasKey (d ++ [(k, v)]) k = true := by
      rw [hasKey_append]
      simp [hasKey]
    rw [h1]
    unfold dictSet
    rw [if_pos h2]
    rw [List.map_append, map_setKey_id_of_not_hasKey v hk]
    simp

theorem dictSet_ne_nil {α : Type} (d : PyDict α) (k : String) (v : α) :
    dictSet d k v ≠ [] := by
  unfold dictSet
  cases hk : hasKey d k with
  | true =>
    rw [if_pos rfl]
    intro hcontra
    rw [List.map_eq_nil_iff] at hcontra
    subst hcontra
    simp [hasKey] at hk
  | false =>
    rw [if_neg (by simp)]
    simp

theorem dictGet_some_ne_nil {α : Type} {d : PyDict α} {k : String} {v : α}
    (h : dictGet d k = some v) : d ≠ [] := by
  intro hcontra
  subst hcontra
  cases h

theorem map_setKey_id_of_nodup {α : Type} {d : PyDict α} {k : String} {v : α}
    (hnd : (d.map Prod.fst).Nodup) (h : dictGet d k = some v) :
    d.map (fun p => if p.1 == k then (k, v) else p) = d := by
  induction d with
  | nil => cases h
  | cons q tl ih =>
    rw [List.map_cons, List.nodup_cons] at hnd
    rw [dictGet_cons] at h
    cases hq : q.1 == k with
    | true =>
      rw [if_pos hq] at h
      cases h
      rw [List.map_cons, if_pos hq]
      have hkq : (k : String) = q.1 := by
        rw [beq_iff_eq] at hq
        exact hq.symm
      have htl : hasKey tl k = false := by
        subst hkq
        simp only [hasKey, List.any_eq_false]
        intro p hp
        have := hnd.1
        simp only [List.mem_map] at this
        intro hpk
        exact this ⟨p, hp, (beq_iff_eq.mp hpk)⟩
      rw [map_setKey_id_of_not_hasKey _ htl]
      congr 1
      rw [beq_iff_eq] at hq
      exact Prod.ext hq.symm rfl
    | false =>
      rw [if_neg (by simp [hq])] at h
      rw [List.map_cons, if_neg (by simp [hq]), ih hnd.2 h]

theorem dictSet_of_dictGet_nodup {α : Type} {d : PyDict α} {k : String} {v : α}
    (hnd : (d.map Prod.fst).Nodup) (h : dictGet d k = some v) :
    dictSet d k v = d := by
  unfold dictSet
  rw [if_pos (hasKey_of_dictGet_eq_some h)]
  exact map_setKey_id_of_nodup hnd h

theorem hasKey_eq_false_of_dictGet_eq_none {α : Type} {d : PyDict α} {k : String}
    (h : dictGet d k = none) : hasKey d k = false := by
  induction d with
  | nil => rfl
  | cons q tl ih =>
    rw [dictGet_cons] at h
    rw [hasKey_cons]
    cases hq : q.1 == k with
    | true => rw [if_pos hq] at h; cases h
    | false =>
      rw [if_neg (by simp [hq])] at h
      simpa using ih h

theorem fixButton_of_no_alias {f : PyDict JValue}
    (h1 : hasKey f "callbackData" = false) (h2 : hasKey f "callback" = false) :
    fixButton f = f := by
  unfold fixButton fixButtonG
  rw [dictPop_of_not_hasKey h1]
  dsimp only
  rw [dictPop_of_not_hasKey h2]

theorem fixButton_aliases_removed {f : PyDict JValue} (hg : goodButton f = true) :
    hasKey (fixButton f) "callbackData" = false ∧
    hasKey (fixButton f) "callback" = false := by
  have hcdne : ("callback_data" : String) ≠ "callbackData" := by decide
  have hcbne : ("callback_data" : String) ≠ "callback" := by decide
  cases hcd : dictGet f "callbackData" with
  | none =>
    cases hcb : dictGet (f.filter (fun p => p.1 != "callbackData")) "callback" with
    | none =>
      have hval : fixButton f =
          (f.filter (fun p => p.1 != "callbackData")).filter
            (fun p => p.1 != "callback") := by
        simp [fixButton, fixButtonG, dictPop, hcd, hcb]
      rw [hval]
      exact ⟨hasKey_filter_false _ (hasKey_dictPop_ne f "callbackData"),
        hasKey_dictPop_ne _ "callback"⟩
    | some w =>
      have hval : fixButton f =
          dictSet ((f.filter (fun p => p.1 != "callbackData")).filter
            (fun p => p.1 != "callback")) "callback_data" w := by
        simp [fixButton, fixButtonG, dictPop, hcd, hcb]
      rw [hval]
      exact ⟨hasKey_dictSet_other _ hcdne
          (hasKey_filter_false _ (hasKey_dictPop_ne f "callbackData")),
        hasKey_dictSet_other _ hcbne (hasKey_dictPop_ne _ "callback")⟩
  | some v =>
    cases htr : v.truthy with
    | true =>
      have hcb : hasKey f "callback" = false := by
        unfold goodButton at hg
        rw [hcd] at hg
        simpa [htr] using hg
      have hval : fixButton f =
          dictSet (f.filter (fun p => p.1 != "callbackData")) "callback_data" v := by
        simp [fixButton, fixButtonG, dictPop, hcd, htr]
      rw [hval]
      exact ⟨hasKey_dictSet_other _ hcdne (hasKey_dictPop_ne f "callbackData"),
        hasKey_dictSet_other _ hcbne (hasKey_filter_false _ hcb)⟩
    | false =>
      cases hcb : dictGet (f.filter (fun p => p.1 != "callbackData")) "callback" with
      | none =>
        have hval : fixButton f =
            (f.filter (fun p => p.1 != "callbackData")).filter
              (fun p => p.1 != "callback") := by
          simp [fixButton, fixButtonG, dictPop, hcd, htr, hcb]
        rw [hval]
        exact ⟨hasKey_filter_false _ (hasKey_dictPop_ne f "callbackData"),
          hasKey_dictPop_ne _ "callback"⟩
      | some w =>
        have hval : fixButton f =
            dictSet ((f.filter (fun p => p.1 != "callbackData")).filter
              (fun p => p.1 != "callback")) "callback_data" w := by
          simp [fixButton, fixButtonG, dictPop, hcd, htr, hcb]
        rw [hval]
        exact ⟨hasKey_dictSet_other _ hcdne
            (hasKey_filter_false _ (hasKey_dictPop_ne f "callbackData")),
          hasKey_dictSet_other _ hcbne (hasKey_dictPop_ne _ "callback")⟩

theorem fixButton_idem {f : PyDict JValue} (hg : goodButton f = true) :
    fixButton (fixButton f) = fixButton f :=
  fixButton_of_no_alias (fixButton_aliases_removed hg).1
    (fixButton_aliases_removed hg).2

theorem mapExcept_fixBtnVal_idem {btns btns' : List JValue}
    (hall : btns.all goodBtnVal = true)
    (h : mapExcept fixBtnVal btns = .ok btns') :
    mapExcept fixBtnVal btns' = .ok btns' := by
  induction btns generalizing btns' with
  | nil =>
    simp only [mapExcept] at h
    cases h
    rfl
  | cons b bs ih =>
    rw [List.all_cons, Bool.and_eq_true] at hall
    simp only [mapExcept] at h
    cases hb : fixBtnVal b with
    | error e => rw [hb] at h; cases h
    | ok b1 =>
      rw [hb] at h
      cases hbs : mapExcept fixBtnVal bs with
      | error e => rw [hbs] at h; cases h
      | ok bs1 =>
        rw [hbs] at h
        cases h
        have hb1 : fixBtnVal b1 = .ok b1 := by
          cases b with
          | obj f =>
            simp only [fixBtnVal] at hb
            cases hb
            simp only [fixBtnVal]
            rw [fixButton_idem (by simpa [goodBtnVal] using hall.1)]
          | str s => simp only [fixBtnVal] at hb; cases hb
          | num n => simp only [fixBtnVal] at hb; cases hb
          | bool bb => simp only [fixBtnVal] at hb; cases hb
          | null => simp only [fixBtnVal] at hb; cases hb
          | arr xs => simp only [fixBtnVal] at hb; cases hb
        simp only [mapExcept]
        rw [hb1, ih hall.2 hbs]

theorem mapExcept_fixRow_idem {rows rows' : List JValue}
    (hall : rows.all goodRowVal = true)
    (h : mapExcept fixRow rows = .ok rows') :
    mapExcept fixRow rows' = .ok rows' := by
  induction rows generalizing rows' with
  | nil =>
    simp only [mapExcept] at h
    cases h
    rfl
  | cons r rs ih =>
    rw [List.all_cons, Bool.and_eq_true] at hall
    simp only [mapExcept] at h
    cases hr : fixRow r with
    | error e => rw [hr] at h; cases h
    | ok r1 =>
      rw [hr] at h
      cases hrs : mapExcept fixRow rs with
      | error e => rw [hrs] at h; cases h
      | ok rs1 =>
        rw [hrs] at h
        cases h
        have hr1 : fixRow r1 = .ok r1 := by
          cases r with
          | arr btns =>
            simp only [fixRow] at hr
            cases hbtns : mapExcept fixBtnVal btns with
            | error e => rw [hbtns] at hr; cases hr
            | ok btns1 =>
              rw [hbtns] at hr
              simp only [Except.map] at hr
              cases hr
              simp only [fixRow]
              rw [mapExcept_fixBtnVal_idem (by simpa [goodRowVal] using hall.1) hbtns]
              rfl
          | str s => simp only [fixRow] at hr; cases hr
          | num n => simp only [fixRow] at hr; cases hr
          | bool bb => simp only [fixRow] at hr; cases hr
          | null => simp only [fixRow] at hr; cases hr
          | obj f => simp only [fixRow] at hr; cases hr
        simp only [mapExcept]
        rw [hr1, ih hall.2 hrs]

theorem fixBtnVal_canonical {b : JValue} (hc : canonicalBtnVal b = true) :
    fixBtnVal b = .ok b := by
  cases b with
  | obj f =>
    simp only [canonicalBtnVal, Bool.and_eq_true, Bool.not_eq_true'] at hc
    simp only [fixBtnVal]
    rw [fixButton_of_no_alias hc.1 hc.2]
  | str s => simp [canonicalBtnVal] at hc
  | num n => simp [canonicalBtnVal] at hc
  | bool bb => simp [canonicalBtnVal] at hc
  | null => simp [canonicalBtnVal] at hc
  | arr xs => simp [canonicalBtnVal] at hc

theorem mapExcept_fixBtnVal_canonical {btns : List JValue}
    (hall : btns.all canonicalBtnVal = true) :
    mapExcept fixBtnVal btns = .ok btns := by
  induction btns with
  | nil => rfl
  | cons b bs ih =>
    rw [List.all_cons, Bool.and_eq_true] at hall
    simp only [mapExcept]
    rw [fixBtnVal_canonical hall.1, ih hall.2]

theorem mapExcept_fixRow_canonical {rows : List JValue}
    (hall : rows.all canonicalRowVal = true) :
    mapExcept fixRow rows = .ok rows := by
  induction rows with
  | nil => rfl
  | cons r rs ih =>
    rw [List.all_cons, Bool.and_eq_true] at hall
    have hr : fixRow r = .ok r := by
      cases r with
      | arr btns =>
        simp only [fixRow]
        rw [mapExcept_fixBtnVal_canonical (by simpa [canonicalRowVal] using hall.1)]
        rfl
      | str s => simp [canonicalRowVal] at hall
      | num n => simp [canonicalRowVal] at hall
      | bool bb => simp [canonicalRowVal] at hall
      | null => simp [canonicalRowVal] at hall
      | obj f => simp [canonicalRowVal] at hall
    simp only [mapExcept]
    rw [hr, ih hall.2]

/-- C6 counterexample: normalization is not idempotent on the code as
written.  A button carrying both alias fields, `\x7b"callbackData": "x",
"callback": "y"\x7d`, keeps its `callback` key through the first pass
(Python's `or` short-circuits on the truthy `callbackData`), and a second
pass then rewrites `callback_data` to `"y"`: the two passes give different
results. -/
theorem fix_reply_markup_not_idempotent_cex :
    fix_reply_markup rmDouble = .ok rmDouble1 ∧
    fix_reply_markup rmDouble1 = .ok rmDouble2 ∧
    rmDouble1 ≠ rmDouble2 := by
  refine ⟨rfl, rfl, ?_⟩
  simp [rmDouble1, rmDouble2]

/-- C6 amended: normalizing an already-canonical markup (with genuinely
dict-shaped keys) returns an equal object, normalizing
`\x7b"callbackData": "x"\x7d` yields `\x7b"callback_data": "x"\x7d`, and
normalization applied twice equals normalization applied once provided no
button carries a truthy `callbackData` together with a `callback` key —
the counterexample shape, which this program never builds. -/
theorem fix_reply_markup_idempotent_amended :
    (∀ v w : JValue, goodMarkupVal v = true → fix_reply_markup v = .ok w →
      fix_reply_markup w = .ok w) ∧
    fixButton [("callbackData", .str "x")] = [("callback_data", .str "x")] ∧
    (∀ fields : PyDict JValue, canonicalMarkup (.obj fields) = true →
      (fields.map Prod.fst).Nodup →
      fix_reply_markup (.obj fields) = .ok (.obj fields)) := by
  refine ⟨?_, rfl, ?_⟩
  · intro v w hgood hfix
    by_cases htr : v.truthy = true
    case neg =>
      have hv : fix_reply_markup v = .ok v := by
        unfold fix_reply_markup
        rw [if_pos htr]
      rw [hv] at hfix
      cases hfix
      exact hv
    case pos =>
      cases v with
      | null => simp [JValue.truthy] at htr
      | bool b =>
        have hv : fix_reply_markup (JValue.bool b) =
            .error "TypeError: argument is not iterable" := by
          unfold fix_reply_markup
          rw [if_neg (not_not_intro htr)]
        rw [hv] at hfix
        cases hfix
      | num n =>
        have hv : fix_reply_markup (JValue.num n) =
            .error "TypeError: argument is not iterable" := by
          unfold fix_reply_markup
          rw [if_neg (not_not_intro htr)]
        rw [hv] at hfix
        cases hfix
      | str s =>
        by_cases hsub : ((s.splitOn "inline_keyboard").length == 1) = true
        · have hv : fix_reply_markup (JValue.str s) = .ok (JValue.str s) := by
            unfold fix_reply_markup
            rw [if_neg (not_not_intro htr)]
            simp [hsub]
          rw [hv] at hfix
          cases hfix
          exact hv
        · have hv : fix_reply_markup (JValue.str s) =
              .error "ValueError: dict() on a string" := by
            unfold fix_reply_markup
            rw [if_neg (not_not_intro htr)]
            simp only [Bool.not_eq_true] at hsub
            simp [hsub]
          rw [hv] at hfix
          cases hfix
      | arr xs =>
        by_cases hcon : xs.contains (JValue.str "inline_keyboard") = true
        · have hv : fix_reply_markup (JValue.arr xs) =
              .error "TypeError: list is not a keyboard dict" := by
            unfold fix_reply_markup
            rw [if_neg (not_not_intro htr)]
            simp [hcon]
          rw [hv] at hfix
          cases hfix
        · have hv : fix_reply_markup (JValue.arr xs) = .ok (JValue.arr xs) := by
            unfold fix_reply_markup
            rw [if_neg (not_not_intro htr)]
            simp only [Bool.not_eq_true] at hcon
            simp [hcon]
          rw [hv] at hfix
          cases hfix
          exact hv
      | obj fields =>
        have hv : fix_reply_markup (JValue.obj fields) =
            (match dictGet fields "inline_keyboard" with
             | none => Except.ok (JValue.obj fields)
             | some kb =>
               match kb with
               | .arr rows =>
                 match mapExcept fixRow rows with
                 | .error e => .error e
                 | .ok newRows =>
                   .ok (.obj (dictSet fields "inline_keyboard" (.arr newRows)))
               | _ => .error "TypeError: inline_keyboard rows are not a list") := by
          unfold fix_reply_markup
          rw [if_neg (not_not_intro htr)]
        rw [hv] at hfix
        cases hkb : dictGet fields "inline_keyboard" with
        | none =>
          rw [hkb] at hfix
          cases hfix
          rw [hv, hkb]
        | some kb =>
          rw [hkb] at hfix
          cases kb with
          | str s => cases hfix
          | num n => cases hfix
          | bool b => cases hfix
          | null => cases hfix
          | obj f => cases hfix
          | arr rows =>
            have hfix2 : (match mapExcept fixRow rows with
                | .error e => (.error e : Except String JValue)
                | .ok newRows =>
                  .ok (.obj (dictSet fields "inline_keyboard" (.arr newRows)))) =
                .ok w := hfix
            cases hmap : mapExcept fixRow rows with
            | error e => rw [hmap] at hfix2; cases hfix2
            | ok newRows =>
              rw [hmap] at hfix2
              cases hfix2
              have hall : rows.all goodRowVal = true := by
                simpa [goodMarkupVal, hkb] using hgood
              have hidem : mapExcept fixRow newRows = .ok newRows :=
                mapExcept_fixRow_idem hall hmap
              have hgne : dictSet fields "inline_keyboard" (JValue.arr newRows) ≠ [] :=
                dictSet_ne_nil _ _ _
              have htrw : (JValue.obj (dictSet fields "inline_keyboard"
                  (JValue.arr newRows))).truthy = true := by
                simp only [JValue.truthy]
                cases hds : dictSet fields "inline_keyboard" (JValue.arr newRows) with
                | nil => exact absurd hds hgne
                | cons a as => rfl
              have hv2 : fix_reply_markup (JValue.obj (dictSet fields "inline_keyboard"
                  (JValue.arr newRows))) =
                  (match dictGet (dictSet fields "inline_keyboard" (JValue.arr newRows))
                      "inline_keyboard" with
                   | none => Except.ok (JValue.obj (dictSet fields "inline_keyboard"
                       (JValue.arr newRows)))
                   | some kb =>
                     match kb with
                     | .arr rows =>
                       match mapExcept fixRow rows with
                       | .error e => .error e
                       | .ok nr =>
                         .ok (.obj (dictSet (dictSet fields "inline_keyboard"
                           (JValue.arr newRows)) "inline_keyboard" (.arr nr)))
                     | _ => .error "TypeError: inline_keyboard rows are not a list") := by
                unfold fix_reply_markup
                rw [if_neg (not_not_intro htrw)]
              rw [hv2]
              simp only [dictGet_dictSet_self, hidem, dictSet_dictSet_same]
  · intro fields hcan hnd
    have hkb : ∃ rows, dictGet fields "inline_keyboard" = some (JValue.arr rows) ∧
        rows.all canonicalRowVal = true := by
      cases hkb0 : dictGet fields "inline_keyboard" with
      | none => simp [canonicalMarkup, hkb0] at hcan
      | some kb =>
        cases kb with
        | arr rows => exact ⟨rows, rfl, by simpa [canonicalMarkup, hkb0] using hcan⟩
        | str s => simp [canonicalMarkup, hkb0] at hcan
        | num n => simp [canonicalMarkup, hkb0] at hcan
        | bool b => simp [canonicalMarkup, hkb0] at hcan
        | null => simp [canonicalMarkup, hkb0] at hcan
        | obj f => simp [canonicalMarkup, hkb0] at hcan
    obtain ⟨rows, hkb, hall⟩ := hkb
    have hne : fields ≠ [] := dictGet_some_ne_nil hkb
    have htr : (JValue.obj fields).truthy = true := by
      simp only [JValue.truthy]
      cases hds : fields with
      | nil => exact absurd hds hne
      | cons a as => rfl
    have hv : fix_reply_markup (JValue.obj fields) =
        (match dictGet fields "inline_keyboard" with
         | none => Except.ok (JValue.obj fields)
         | some kb =>
           match kb with
           | .arr rows =>
             match mapExcept fixRow rows with
             | .error e => .error e
             | .ok newRows =>
               .ok (.obj (dictSet fields "inline_keyboard" (.arr newRows)))
           | _ => .error "TypeError: inline_keyboard rows are not a list") := by
      unfold fix_reply_markup
      rw [if_neg (not_not_intro htr)]
    rw [hv]
    simp only [hkb, mapExcept_fixRow_canonical hall,
      dictSet_of_dictGet_nodup hnd hkb]

/-!
C7: where in the outbound paths the markup normalization actually runs.
-/

theorem foldl_fields_preserve (tl : PyDict JValue) (acc : PyDict String) (k : String)
    (h : hasKey tl k = false) :
    dictGet (tl.foldl (fun acc p =>
      if p.1 == "filename" || p.1 == "content_type" then acc
      else dictSet acc p.1 (match p.2 with
        | .obj d => jdump (.obj d)
        | v => pystr v)) acc) k = dictGet acc k := by
  induction tl generalizing acc with
  | nil => rfl
  | cons q tl ih =>
    rw [hasKey_cons, Bool.or_eq_false_iff] at h
    rw [List.foldl_cons]
    cases hq : q.1 == "filename" || q.1 == "content_type" with
    | true =>
      rw [if_pos rfl]
      exact ih acc h.2
    | false =>
      rw [if_neg (by simp)]
      rw [ih _ h.2]
      exact dictGet_dictSet_ne acc k q.1 _ (by simpa using h.1)

theorem foldl_fields_reply_markup (opts : PyDict JValue) (acc : PyDict String)
    (hnd : (opts.map Prod.fst).Nodup) (m : PyDict JValue)
    (hv : dictGet opts "reply_markup" = some (.obj m)) :
    dictGet (opts.foldl (fun acc p =>
      if p.1 == "filename" || p.1 == "content_type" then acc
      else dictSet acc p.1 (match p.2 with
        | .obj d => jdump (.obj d)
        | v => pystr v)) acc) "reply_markup" = some (jdump (.obj m)) := by
  induction opts generalizing acc with
  | nil => cases hv
  | cons q tl ih =>
    rw [List.map_cons, List.nodup_cons] at hnd
    rw [dictGet_cons] at hv
    rw [List.foldl_cons]
    cases hq : q.1 == "reply_markup" with
    | true =>
      rw [if_pos hq] at hv
      have hv2 : q.2 = JValue.obj m := by injection hv
      have hq' : q.1 = "reply_markup" := beq_iff_eq.mp hq
      have hcond : (q.1 == "filename" || q.1 == "content_type") = false := by
        rw [hq']
        decide
      rw [if_neg (by simp [hcond])]
      have htl : hasKey tl "reply_markup" = false := by
        simp only [hasKey, List.any_eq_false]
        intro p hp hpk
        exact hnd.1 (by
          rw [hq']
          exact List.mem_map.mpr ⟨p, hp, beq_iff_eq.mp hpk⟩)
      rw [foldl_fields_preserve tl _ _ htl, hq', hv2]
      exact dictGet_dictSet_self acc "reply_markup" _
    | false =>
      rw [if_neg (by simp [hq])] at hv
      cases hqc : q.1 == "filename" || q.1 == "content_type" with
      | true =>
        rw [if_pos rfl]
        exact ih _ hnd.2 hv
      | false =>
        rw [if_neg (by simp)]
        exact ih _ hnd.2 hv

/-- C7 counterexample: in raw-bytes multipart mode `_send_file` serializes
the keyboard without normalization — the alias field name `callbackData`
survives verbatim into the `reply_markup` form field, although
normalization would have produced a different serialization. -/
theorem send_file_multipart_no_normalization_cex :
    send_file (.num 1) "photo" (.bytesData 3) "photo.jpg" "image/jpeg"
        (some [("reply_markup", rmAlias)]) =
      .ok (.multipart [("chat_id", pystr (.num 1)), ("reply_markup", jdump rmAlias)]
        "photo.jpg" "image/jpeg") ∧
    fix_reply_markup rmAlias = .ok rmAliasFixed ∧
    jdump rmAlias ≠ jdump rmAliasFixed := by
  refine ⟨rfl, rfl, ?_⟩
  decide

/-- C7 amended: the alias button fields are rewritten to `callback_data`
before serialization for `send_message`, `edit_message_text` and the
external-reference JSON mode of `_send_file`; in raw-bytes multipart mode,
however, the keyboard option is JSON-encoded exactly as given, with no
normalization pass. -/
theorem markup_normalization_json_paths_amended :
    (∀ (chat_id : JValue) (text : String) (opts : PyDict JValue) (v v' : JValue)
        (p : PyDict JValue),
      dictGet opts "reply_markup" = some v →
      fix_reply_markup v = .ok v' →
      send_message chat_id text (some opts) = .ok p →
      dictGet p "reply_markup" = some v') ∧
    (∀ (text : String) (opts : PyDict JValue) (v v' : JValue) (p : PyDict JValue),
      dictGet opts "reply_markup" = some v →
      fix_reply_markup v = .ok v' →
      edit_message_text text (some opts) = .ok p →
      dictGet p "reply_markup" = some v') ∧
    (∀ (chat_id : JValue) (file_field s dfn dmt : String) (opts : PyDict JValue)
        (v v' : JValue) (p : PyDict JValue),
      dictGet opts "reply_markup" = some v →
      fix_reply_markup v = .ok v' →
      send_file chat_id file_field (.strData s) dfn dmt (some opts) =
        .ok (.jsonPayload p) →
      dictGet p "reply_markup" = some v') ∧
    (∀ (chat_id : JValue) (file_field dfn dmt : String) (opts : PyDict JValue)
        (n : Nat) (m : PyDict JValue) (fields : PyDict String) (fn ct : String),
      (opts.map Prod.fst).Nodup →
      dictGet opts "reply_markup" = some (.obj m) →
      send_file chat_id file_field (.bytesData n) dfn dmt (some opts) =
        .ok (.multipart fields fn ct) →
      dictGet fields "reply_markup" = some (jdump (.obj m))) := by
  refine ⟨?_, ?_, ?_, ?_⟩
  · intro chat_id text opts v v' p hv hfx hsm
    have h2 : (match dictGet opts "reply_markup" with
        | none => Except.ok (dictUpdate [("chat_id", chat_id), ("text", JValue.str text)] opts)
        | some rmv =>
          match fix_reply_markup rmv with
          | .error e => .error e
          | .ok fixed =>
            .ok (dictUpdate (dictSet [("chat_id", chat_id), ("text", JValue.str text)]
              "reply_markup" fixed) ((dictPop opts "reply_markup").2))) = .ok p := hsm
    rw [hv] at h2
    have h3 : (match fix_reply_markup v with
        | .error e => (.error e : Except String (PyDict JValue))
        | .ok fixed =>
          .ok (dictUpdate (dictSet [("chat_id", chat_id), ("text", JValue.str text)]
            "reply_markup" fixed) ((dictPop opts "reply_markup").2))) = .ok p := h2
    rw [hfx] at h3
    cases h3
    rw [dictGet_dictUpdate_not_has _ _ _ (hasKey_dictPop_ne opts "reply_markup")]
    exact dictGet_dictSet_self _ _ _
  · intro text opts v v' p hv hfx hsm
    have h2 : (match dictGet opts "reply_markup" with
        | none => Except.ok (dictUpdate [("text", JValue.str text)] opts)
        | some rmv =>
          match fix_reply_markup rmv with
          | .error e => .error e
          | .ok fixed =>
            .ok (dictUpdate (dictSet [("text", JValue.str text)]
              "reply_markup" fixed) ((dictPop opts "reply_markup").2))) = .ok p := hsm
    rw [hv] at h2
    have h3 : (match fix_reply_markup v with
        | .error e => (.error e : Except String (PyDict JValue))
        | .ok fixed =>
          .ok (dictUpdate (dictSet [("text", JValue.str text)]
            "reply_markup" fixed) ((dictPop opts "reply_markup").2))) = .ok p := h2
    rw [hfx] at h3
    cases h3
    rw [dictGet_dictUpdate_not_has _ _ _ (hasKey_dictPop_ne opts "reply_markup")]
    exact dictGet_dictSet_self _ _ _
  · intro chat_id file_field s dfn dmt opts v v' p hv hfx hsm
    have h2 : (match dictGet opts "reply_markup" with
        | none => Except.ok (SendFilePayload.jsonPayload
            (dictUpdate [("chat_id", chat_id), (file_field, JValue.str s)] opts))
        | some rmv =>
          match fix_reply_markup rmv with
          | .error e => .error e
          | .ok fixed =>
            .ok (.jsonPayload (dictUpdate (dictSet
              [("chat_id", chat_id), (file_field, JValue.str s)]
              "reply_markup" fixed) ((dictPop opts "reply_markup").2)))) =
        .ok (.jsonPayload p) := hsm
    rw [hv] at h2
    have h3 : (match fix_reply_markup v with
        | .error e => (.error e : Except String SendFilePayload)
        | .ok fixed =>
          .ok (.jsonPayload (dictUpdate (dictSet
            [("chat_id", chat_id), (file_field, JValue.str s)]
            "reply_markup" fixed) ((dictPop opts "reply_markup").2)))) =
        .ok (.jsonPayload p) := h2
    rw [hfx] at h3
    cases h3
    rw [dictGet_dictUpdate_not_has _ _ _ (hasKey_dictPop_ne opts "reply_markup")]
    exact dictGet_dictSet_self _ _ _
  · intro chat_id file_field dfn dmt opts n m fields fn ct hnd hv hsend
    have h2 : Except.ok (SendFilePayload.multipart
        (opts.foldl (fun acc p =>
          if p.1 == "filename" || p.1 == "content_type" then acc
          else dictSet acc p.1 (match p.2 with
            | .obj d => jdump (.obj d)
            | v => pystr v)) [("chat_id", pystr chat_id)])
        (match dictGet opts "filename" with
          | some v => pystr v
          | none => dfn)
        (match dictGet opts "content_type" with
          | some v => pystr v
          | none => dmt)) = .ok (.multipart fields fn ct) := hsend
    cases h2
    exact foldl_fields_reply_markup opts _ hnd m hv

/-- Witness for C7 amended: a concrete `send_message` call with an alias
markup and one scalar option carries the normalized markup in its payload. -/
theorem markup_normalization_json_paths_witness :
    dictGet optsW "reply_markup" = some rmAlias ∧
    fix_reply_markup rmAlias = .ok rmAliasFixed ∧
    send_message (.num 1) "hello" (some optsW) = .ok pW ∧
    dictGet pW "reply_markup" = some rmAliasFixed :=
  ⟨rfl, rfl, rfl,
    markup_normalization_json_paths_amended.1 (.num 1) "hello" optsW rmAlias
      rmAliasFixed pW rfl rfl rfl⟩

/-!
C10: the heap-level frame property of `_fix_reply_markup`.
-/

theorem fixButtonH_spec (h : Heap) (v : PyVal) {h1 : Heap} {v1 : PyVal}
    (hfb : fixButtonH h v = .ok (h1, v1)) :
    (∃ t, h1 = h ++ t) ∧ ∃ a2, v1 = .ref a2 ∧ h.length ≤ a2 := by
  cases v with
  | ref a =>
    have h2 : (match Heap.get h a with
        | some (PyObj.dict fields) =>
          Except.ok (h ++ [PyObj.dict (fixButtonG (PyVal.truthyIn h) fields)],
            PyVal.ref h.length)
        | _ => (.error "TypeError: button is not a dict" :
            Except String (Heap × PyVal))) = .ok (h1, v1) := hfb
    cases hobj : Heap.get h a with
    | some o =>
      cases o with
      | dict fields =>
        rw [hobj] at h2
        cases h2
        exact ⟨⟨_, rfl⟩, h.length, rfl, le_refl _⟩
      | list l => rw [hobj] at h2; cases h2
    | none => rw [hobj] at h2; cases h2
  | str s => cases hfb
  | num n => cases hfb
  | bool b => cases hfb
  | noneV => cases hfb

theorem mapHeap_extends (f : Heap → PyVal → Except String (Heap × PyVal))
    (hf : ∀ (h : Heap) (v : PyVal) (h1 : Heap) (v1 : PyVal),
      f h v = .ok (h1, v1) → ∃ t, h1 = h ++ t) :
    ∀ (vs : List PyVal) (h h2 : Heap) (vs1 : List PyVal),
      mapHeap f h vs = .ok (h2, vs1) → ∃ t, h2 = h ++ t := by
  intro vs
  induction vs with
  | nil =>
    intro h h2 vs1 hm
    have h3 : (Except.ok (h, ([] : List PyVal)) :
        Except String (Heap × List PyVal)) = .ok (h2, vs1) := hm
    cases h3
    exact ⟨[], by simp⟩
  | cons v vs ih =>
    intro h h2 vs1 hm
    have h3 : (match f h v with
        | .error e => (.error e : Except String (Heap × List PyVal))
        | .ok (h1, v1) =>
          match mapHeap f h1 vs with
          | .error e => .error e
          | .ok (hb, vsb) => .ok (hb, v1 :: vsb)) = .ok (h2, vs1) := hm
    cases hfv : f h v with
    | error e => rw [hfv] at h3; cases h3
    | ok p =>
      obtain ⟨h1, v1⟩ := p
      rw [hfv] at h3
      have h4 : (match mapHeap f h1 vs with
          | .error e => (.error e : Except String (Heap × List PyVal))
          | .ok (hb, vsb) => .ok (hb, v1 :: vsb)) = .ok (h2, vs1) := h3
      cases hm2 : mapHeap f h1 vs with
      | error e => rw [hm2] at h4; cases h4
      | ok q =>
        obtain ⟨hb, vsb⟩ := q
        rw [hm2] at h4
        cases h4
        obtain ⟨t1, ht1⟩ := hf h v h1 v1 hfv
        obtain ⟨t2, ht2⟩ := ih h1 _ _ hm2
        exact ⟨t1 ++ t2, by rw [ht2, ht1, List.append_assoc]⟩

theorem fixRowH_spec (h : Heap) (v : PyVal) {h1 : Heap} {v1 : PyVal}
    (hfr : fixRowH h v = .ok (h1, v1)) : ∃ t, h1 = h ++ t := by
  cases v with
  | ref a =>
    have h2 : (match Heap.get h a with
        | some (PyObj.list btns) =>
          (match mapHeap fixButtonH h btns with
           | .error e => (.error e : Except String (Heap × PyVal))
           | .ok (hb, newBtns) => Except.ok (hb ++ [PyObj.list newBtns], PyVal.ref hb.length))
        | _ => (.error "TypeError: row is not a list" :
            Except String (Heap × PyVal))) = .ok (h1, v1) := hfr
    cases hobj : Heap.get h a with
    | some o =>
      cases o with
      | list btns =>
        rw [hobj] at h2
        have h3 : (match mapHeap fixButtonH h btns with
            | .error e => (.error e : Except String (Heap × PyVal))
            | .ok (hb, newBtns) =>
              .ok (hb ++ [PyObj.list newBtns], PyVal.ref hb.length)) = .ok (h1, v1) := h2
        cases hm : mapHeap fixButtonH h btns with
        | error e => rw [hm] at h3; cases h3
        | ok q =>
          obtain ⟨hb, newBtns⟩ := q
          rw [hm] at h3
          cases h3
          obtain ⟨t, ht⟩ := mapHeap_extends fixButtonH
            (fun h v h1 v1 hfb => (fixButtonH_spec h v hfb).1) btns h _ _ hm
          exact ⟨t ++ [PyObj.list _], by rw [ht, List.append_assoc]⟩
      | dict fields => rw [hobj] at h2; cases h2
    | none => rw [hobj] at h2; cases h2
  | str s => cases hfr
  | num n => cases hfr
  | bool b => cases hfr
  | noneV => cases hfr

/-- C10: `_fix_reply_markup` never mutates the caller's objects.  On every
successful run the input heap is preserved at every existing address (all
dicts and lists the argument references, buttons included, are untouched);
an absent argument and a dict without an `"inline_keyboard"` key come back
as the same reference with the heap unchanged, and in the rebuild case the
returned markup is a freshly allocated dict. -/
theorem fix_reply_markupH_no_mutation (h : Heap) (rmRef : Option PyVal)
    (res : Heap × Option PyVal) (hok : fix_reply_markupH h rmRef = .ok res) :
    (∀ b, b < h.length → res.1.get b = h.get b) ∧
    (rmRef = none → res = (h, none)) ∧
    (∀ a fields, rmRef = some (.ref a) → h.get a = some (.dict fields) →
      hasKey fields "inline_keyboard" = false → res = (h, rmRef)) ∧
    (∀ a fields, rmRef = some (.ref a) → h.get a = some (.dict fields) →
      fields ≠ [] → hasKey fields "inline_keyboard" = true →
      ∃ a2, res.2 = some (.ref a2) ∧ h.length ≤ a2) := by
  cases rmRef with
  | none =>
    have h1 : (Except.ok (h, (none : Option PyVal)) :
        Except String (Heap × Option PyVal)) = .ok res := hok
    cases h1
    refine ⟨fun b _ => rfl, fun _ => rfl, ?_, ?_⟩
    · intro a fields hrm
      cases hrm
    · intro a fields hrm
      cases hrm
  | some v =>
    simp only [fix_reply_markupH] at hok
    by_cases htr : PyVal.truthyIn h v = true
    case neg =>
      rw [if_pos htr] at hok
      cases hok
      refine ⟨?_, ?_, ?_, ?_⟩
      · intro b _
        rfl
      · intro hc
        cases hc
      · intro a fields hrm _ _
        cases hrm
        rfl
      · intro a fields hrm hget hne _
        cases hrm
        exfalso
        apply htr
        simp only [PyVal.truthyIn, hget]
        cases hfs : fields with
        | nil => exact absurd hfs hne
        | cons p ps => rfl
    case pos =>
      rw [if_neg (not_not_intro htr)] at hok
      cases v with
      | str s => cases hok
      | num n => cases hok
      | bool b => cases hok
      | noneV => cases hok
      | ref a =>
        have h2 : (match Heap.get h a with
            | some (PyObj.dict fields) =>
              if ¬ hasKey fields "inline_keyboard" = true then
                Except.ok (h, some (PyVal.ref a))
              else
                match dictGet fields "inline_keyboard" with
                | some (PyVal.ref kbA) =>
                  match Heap.get (h ++ [PyObj.dict fields]) kbA with
                  | some (PyObj.list rows) =>
                    match mapHeap fixRowH (h ++ [PyObj.dict fields]) rows with
                    | .error e => .error e
                    | .ok (hh, newRows) =>
                      .ok ((hh ++ [PyObj.list newRows]).set h.length
                          (PyObj.dict (dictSet fields "inline_keyboard"
                            (PyVal.ref hh.length))),
                        some (PyVal.ref h.length))
                  | _ => .error "TypeError: inline_keyboard is not a list"
                | _ => .error "TypeError: inline_keyboard is not a list"
            | _ => (.error "TypeError: reply_markup is not a dict" :
                Except String (Heap × Option PyVal))) = .ok res := hok
        cases hget : Heap.get h a with
        | none => rw [hget] at h2; cases h2
        | some o =>
          cases o with
          | list l => rw [hget] at h2; cases h2
          | dict fields =>
            rw [hget] at h2
            have h2b : (if ¬ hasKey fields "inline_keyboard" = true then
                  Except.ok (h, some (PyVal.ref a))
                else
                  match dictGet fields "inline_keyboard" with
                  | some (PyVal.ref kbA) =>
                    match Heap.get (h ++ [PyObj.dict fields]) kbA with
                    | some (PyObj.list rows) =>
                      match mapHeap fixRowH (h ++ [PyObj.dict fields]) rows with
                      | .error e => .error e
                      | .ok (hh, newRows) =>
                        .ok ((hh ++ [PyObj.list newRows]).set h.length
                            (PyObj.dict (dictSet fields "inline_keyboard"
                              (PyVal.ref hh.length))),
                          some (PyVal.ref h.length))
                    | _ => .error "TypeError: inline_keyboard is not a list"
                  | _ => (.error "TypeError: inline_keyboard is not a list" :
                      Except String (Heap × Option PyVal))) = .ok res := h2
            by_cases hkb : hasKey fields "inline_keyboard" = true
            case neg =>
              rw [if_pos hkb] at h2b
              cases h2b
              refine ⟨?_, ?_, ?_, ?_⟩
              · intro b _
                rfl
              · intro hc
                cases hc
              · intro a' fields' hrm hget' hkey'
                cases hrm
                rfl
              · intro a' fields' hrm hget' _ hkey'
                cases hrm
                rw [hget] at hget'
                cases hget'
                exact absurd hkey' (by simpa using hkb)
            case pos =>
              rw [if_neg (not_not_intro hkb)] at h2b
              cases hkbget : dictGet fields "inline_keyboard" with
              | none => rw [hkbget] at h2b; cases h2b
              | some pv =>
                rw [hkbget] at h2b
                cases pv with
                | str s => cases h2b
                | num n => cases h2b
                | bool b => cases h2b
                | noneV => cases h2b
                | ref kbA =>
                  have h3 : (match Heap.get (h ++ [PyObj.dict fields]) kbA with
                      | some (PyObj.list rows) =>
                        match mapHeap fixRowH (h ++ [PyObj.dict fields]) rows with
                        | .error e => (.error e : Except String (Heap × Option PyVal))
                        | .ok (hh, newRows) =>
                          .ok ((hh ++ [PyObj.list newRows]).set h.length
                              (PyObj.dict (dictSet fields "inline_keyboard"
                                (PyVal.ref hh.length))),
                            some (PyVal.ref h.length))
                      | _ => (.error "TypeError: inline_keyboard is not a list" :
                          Except String (Heap × Option PyVal))) = .ok res := h2b
                  cases hrows : Heap.get (h ++ [PyObj.dict fields]) kbA with
                  | none => rw [hrows] at h3; cases h3
                  | some o2 =>
                    rw [hrows] at h3
                    cases o2 with
                    | dict f2 => cases h3
                    | list rows =>
                      have h4 : (match mapHeap fixRowH (h ++ [PyObj.dict fields]) rows with
                          | .error e => (.error e : Except String (Heap × Option PyVal))
                          | .ok (hh, newRows) =>
                            .ok ((hh ++ [PyObj.list newRows]).set h.length
                                (PyObj.dict (dictSet fields "inline_keyboard"
                                  (PyVal.ref hh.length))),
                              some (PyVal.ref h.length))) = .ok res := h3
                      cases hm : mapHeap fixRowH (h ++ [PyObj.dict fields]) rows with
                      | error e => rw [hm] at h4; cases h4
                      | ok q =>
                        obtain ⟨hh, newRows⟩ := q
                        rw [hm] at h4
                        cases h4
                        obtain ⟨t, ht⟩ := mapHeap_extends fixRowH
                          (fun h v h1 v1 hfr => fixRowH_spec h v hfr)
                          rows (h ++ [PyObj.dict fields]) _ _ hm
                        refine ⟨?_, ?_, ?_, ?_⟩
                        · intro b hb
                          show ((hh ++ [PyObj.list newRows]).set h.length
                            (PyObj.dict (dictSet fields "inline_keyboard"
                              (PyVal.ref hh.length))))[b]? = h[b]?
                          rw [List.getElem?_set_ne (by omega)]
                          rw [ht]
                          rw [List.append_assoc, List.append_assoc]
                          rw [List.getElem?_append, if_pos hb]
                        · intro hc
                          cases hc
                        · intro a' fields' hrm hget' hkey'
                          cases hrm
                          rw [hget] at hget'
                          cases hget'
                          rw [hkb] at hkey'
                          cases hkey'
                        · intro a' fields' hrm hget' _ _
                          exact ⟨h.length, rfl, le_refl _⟩

/-- Witness for C10: on the concrete four-object heap the markup is rebuilt
into fresh addresses 4 to 7, the original objects all unchanged, and the
returned reference is the fresh address 4. -/
theorem fix_reply_markupH_no_mutation_witness :
    fix_reply_markupH heapW (some (.ref 0)) = .ok (heapWres, some (.ref 4)) ∧
    Heap.get heapW 0 = some (.dict [("inline_keyboard", PyVal.ref 1)]) ∧
    hasKey [("inline_keyboard", PyVal.ref 1)] "inline_keyboard" = true ∧
    (∀ b, b < heapW.length →
      Heap.get (heapWres, some (PyVal.ref 4)).1 b = Heap.get heapW b) ∧
    (∃ a2, (heapWres, some (PyVal.ref 4)).2 = some (PyVal.ref a2) ∧
      heapW.length ≤ a2) :=
  ⟨rfl, rfl, by decide,
    (fix_reply_markupH_no_mutation heapW (some (.ref 0))
      (heapWres, some (.ref 4)) rfl).1,
    (fix_reply_markupH_no_mutation heapW (some (.ref 0))
      (heapWres, some (.ref 4)) rfl).2.2.2
      0 [("inline_keyboard", PyVal.ref 1)] rfl rfl (by decide) (by decide)⟩

/-- Witness for C6 amended: a concrete good markup normalizes once and the
second pass fixes it; the canonical clause holds at a concrete canonical
markup with distinct keys. -/
theorem fix_reply_markup_idempotent_amended_witness :
    goodMarkupVal rmAlias = true ∧
    fix_reply_markup rmAlias = .ok rmAliasFixed ∧
    fix_reply_markup rmAliasFixed = .ok rmAliasFixed ∧
    canonicalMarkup rmCanon = true ∧
    ((rmCanonFields.map Prod.fst).Nodup) ∧
    fix_reply_markup (.obj rmCanonFields) = .ok (.obj rmCanonFields) :=
  ⟨rfl, rfl,
    fix_reply_markup_idempotent_amended.1 rmAlias rmAliasFixed rfl rfl,
    rfl, by decide,
    fix_reply_markup_idempotent_amended.2.2 rmCanonFields rfl (by decide)⟩

end PosterBot
